import Mathlib

/-! Conversion-narratives: matchmaking and session lifecycle of `server.js`.

A shallow embedding of the in-memory state of `server.js` (the participant
registry, the two waiting queues, the live sessions, the connected sockets and
the pending `setTimeout` callbacks) together with its socket handlers, and the
properties of the specification proved (or refuted) over it.

Modelling conventions.

* A JavaScript string is the list of its UTF-16 code units, so that `.length`
  is `List.length` and `.substring(0, n)` is `List.take n`.
* Identifiers (`p_xxxxxxxx`, `sess_xxxxxxxx`, socket ids) are natural numbers.
  The values produced by `uuidv4()` and by `moment()` are inputs of the
  handler that asks for them.
* A timestamp is the number of milliseconds since the epoch;
  `a.diff(b, 'seconds')` is the difference in milliseconds divided by 1000 and
  truncated towards zero.
* A `Map` is an association list in insertion order.
* Everything the server sends or writes (socket emissions, JSON files, HTTP
  replies) is appended to the log `World.out`.
-/

namespace ConversionNarratives

abbrev JSString := List Nat
abbrev ParticipantId := Nat
abbrev SessionId := Nat
abbrev SocketId := Nat
abbrev Time := Int

/-- The code units of an ASCII literal. -/
def ofAscii (s : String) : JSString := s.toList.map Char.toNat

/-- `a.diff(b, 'seconds')` of moment.js on millisecond timestamps. -/
def diffSeconds (a b : Time) : Int := Int.tdiv (a - b) 1000

/-! ## Maps -/

/-- `Map.prototype.get`. -/
def mapGet {ν : Type} (k : Nat) : List (Nat × ν) → Option ν
  | [] => none
  | (k', v) :: rest => if k' = k then some v else mapGet k rest

/-- `Map.prototype.set`: replaces the value of an existing key in place,
appends a new key. -/
def mapSet {ν : Type} (k : Nat) (v : ν) : List (Nat × ν) → List (Nat × ν)
  | [] => [(k, v)]
  | (k', v') :: rest => if k' = k then (k, v) :: rest else (k', v') :: mapSet k v rest

/-- `Map.prototype.delete`. -/
def mapDelete {ν : Type} (k : Nat) (m : List (Nat × ν)) : List (Nat × ν) :=
  m.filter (fun e => decide (e.1 ≠ k))

/-! ## Data model -/

inductive Classification
  | pro_climate
  | anti_climate
  | neutral
deriving DecidableEq

/-- The fields of the survey payload that the server reads. A missing
`climate_human_causation` is `none`. -/
structure SurveyResponses where
  climate_human_causation : Option Int
  overall_perspective : JSString
  opinion_influences : JSString
deriving DecidableEq

structure ClassificationResult where
  classification : Classification
  score : Option Int
deriving DecidableEq

structure Participant where
  participant_id : ParticipantId
  prolific_id : JSString
  timestamp_joined : Time
  classification : Classification
  classification_score : Option Int
  survey_responses : SurveyResponses
deriving DecidableEq

/-- An entry of `waitingQueues.pro_climate` or `waitingQueues.anti_climate`. -/
structure QueueEntry where
  participant_id : ParticipantId
  socket_id : SocketId
  timestamp : Time
deriving DecidableEq

structure WaitingQueues where
  pro_climate : List QueueEntry
  anti_climate : List QueueEntry
deriving DecidableEq

/-- The object `messageObj` of the `send_message` handler. The sender is
`socket.participant_id`, which is undefined on a socket that never joined. -/
structure Message where
  timestamp : Time
  sender : Option ParticipantId
  message : JSString
  character_count : Nat
deriving DecidableEq

inductive Status
  | created
  | active
  | ended
deriving DecidableEq

inductive CompletionStatus
  | completed
  | incomplete
deriving DecidableEq

/-- The object `sessionData` of `tryToMatch`, with the fields that `endSession`
and `join_session` add later (absent until then). -/
structure Session where
  session_id : SessionId
  timestamp_start : Time
  participants : List ParticipantId
  pairing_time_seconds : Int
  conversation : List Message
  status : Status
  connected_participants : List ParticipantId
  timestamp_end : Option Time
  conversation_duration_seconds : Option Int
  completion_status : Option CompletionStatus
  message_count : Option Nat
  participant_names : Option (List (ParticipantId × JSString))
deriving DecidableEq

/-- The properties the handlers store on a socket object, and its rooms. -/
structure Socket where
  id : SocketId
  participant_id : Option ParticipantId
  classification : Option Classification
  session_id : Option SessionId
  rooms : List SessionId
deriving DecidableEq

inductive Reason
  | time_limit
  | participant_left_early
  | participant_disconnect
  | session_ended
deriving DecidableEq

inductive ErrorMessage
  | participant_not_found
  | session_not_found_or_has_ended
  | not_part_of_this_session
  | session_not_found
deriving DecidableEq

/-- An element of `participant_introductions` in `session_joined`. -/
structure Introduction where
  participant_id : ParticipantId
  participant_name : JSString
  classification : Classification
  personal_views : JSString
  influencing_factors : JSString
deriving DecidableEq

/-- The events the server emits. -/
inductive ServerEvent
  | error (message : ErrorMessage)
  | queue_status (position : Nat) (waiting_for : Classification)
  | match_found (session_id : SessionId)
  | session_joined (participant_introductions : List Introduction)
      (participant_names : List (ParticipantId × JSString))
  | receive_message (messageObj : Message)
  | typing_start
  | typing_stop
  | participant_disconnected
  | participant_left_early
  | conversation_ended (reason : Reason)
deriving DecidableEq

/-- The addressee of an emission: `socket.emit`, `io.to(room).emit` and
`socket.to(room).emit` (the room without the sending socket). -/
inductive Target
  | socket (id : SocketId)
  | room (session_id : SessionId)
  | roomExcept (session_id : SessionId) (sender : SocketId)
deriving DecidableEq

/-- The argument of `saveConversation`. -/
structure ConversationData where
  session_id : SessionId
  conversation : List Message
  total_messages : Nat
  last_updated : Option Time
  messages_per_participant : Option (List (ParticipantId × Nat))
  conversation_duration_seconds : Option Int
  completion_reason : Option Reason
deriving DecidableEq

/-- The JSON reply of `POST /survey/submit`. -/
inductive SurveyReply
  | success (participant_id : ParticipantId) (classification : Classification)
      (redirect_exit_survey : Bool)
  | failure
deriving DecidableEq

inductive Output
  | emit (target : Target) (event : ServerEvent)
  | saveParticipant (participantData : Participant)
  | saveSession (sessionData : Session)
  | saveConversation (conversationData : ConversationData)
  | reply (r : SurveyReply)
deriving DecidableEq

/-- The callbacks handed to `setTimeout`. The two reconnection checks read
`socket.session_id` and `socket.participant_id` of a socket that has already
disconnected; no handler runs on it any more and `tryToMatch` no longer finds
it, so they are the values the socket had when it disconnected. -/
inductive TimerAction
  | timeLimit (session_id : SessionId)
  | reconnectCheck (session_id : SessionId) (participant_id : ParticipantId) (socket : SocketId)
  | finalCheck (session_id : SessionId) (participant_id : ParticipantId) (socket : SocketId)
  | removeSession (session_id : SessionId)
deriving DecidableEq

structure Timer where
  due : Time
  action : TimerAction
deriving DecidableEq

/-- The state of the server process. -/
structure World where
  activeParticipants : List (ParticipantId × Participant)
  waitingQueues : WaitingQueues
  activeSessions : List (SessionId × Session)
  sockets : List Socket
  timers : List Timer
  out : List Output
deriving DecidableEq

/-- The state at process start. -/
def World.init : World :=
  { activeParticipants := [], waitingQueues := ⟨[], []⟩, activeSessions := [],
    sockets := [], timers := [], out := [] }

/-! ## Output and scheduling primitives -/

/-- Any of `socket.emit`, `io.to(..).emit`, `socket.to(..).emit`. -/
def emit (target : Target) (event : ServerEvent) (w : World) : World :=
  { w with out := w.out ++ [Output.emit target event] }

def saveParticipant (participantData : Participant) (w : World) : World :=
  { w with out := w.out ++ [Output.saveParticipant participantData] }

def saveSession (sessionData : Session) (w : World) : World :=
  { w with out := w.out ++ [Output.saveSession sessionData] }

def saveConversation (conversationData : ConversationData) (w : World) : World :=
  { w with out := w.out ++ [Output.saveConversation conversationData] }

/-- `setTimeout(callback, delay)` called at time `now`. -/
def setTimeout (action : TimerAction) (delay : Int) (now : Time) (w : World) : World :=
  { w with timers := w.timers ++ [{ due := now + delay, action := action }] }

/-- `io.sockets.sockets.get(id)`: the connected socket of that id. -/
def getSocket (id : SocketId) (w : World) : Option Socket :=
  w.sockets.find? (fun s => decide (s.id = id))

/-- An assignment to properties of the connected socket `id`. -/
def updateSocket (id : SocketId) (f : Socket → Socket) (w : World) : World :=
  { w with sockets := w.sockets.map (fun s => if s.id = id then f s else s) }

/-- `socket.join(room)`. -/
def joinRoom (room : SessionId) (s : Socket) : Socket :=
  { s with rooms := if room ∈ s.rooms then s.rooms else s.rooms ++ [room] }

/-- `socket.leave(room)`. -/
def leaveRoom (room : SessionId) (s : Socket) : Socket :=
  { s with rooms := s.rooms.filter (fun r => decide (r ≠ room)) }

/-! ## Classification -/

/-- `x >= n` of JavaScript for a number or `undefined`. -/
def jsGe (x : Option Int) (n : Int) : Bool :=
  match x with
  | some v => decide (n ≤ v)
  | none => false

/-- `x <= n` of JavaScript for a number or `undefined`. -/
def jsLe (x : Option Int) (n : Int) : Bool :=
  match x with
  | some v => decide (v ≤ n)
  | none => false

def classifyParticipant (surveyResponses : SurveyResponses) : ClassificationResult :=
  let climateScore := surveyResponses.climate_human_causation
  if jsGe climateScore 5 then
    { classification := Classification.pro_climate, score := climateScore }
  else if jsLe climateScore 3 then
    { classification := Classification.anti_climate, score := climateScore }
  else
    { classification := Classification.neutral, score := climateScore }

/-- The handler of `POST /survey/submit`; `participant_id` is the identifier
made from `uuidv4()`. A missing payload, a missing score and the score 0 are
falsy and rejected. -/
def submit_survey (participant_id : ParticipantId) (prolific_id : JSString)
    (survey_responses : Option SurveyResponses) (now : Time) (w : World) : World :=
  match survey_responses with
  | none => { w with out := w.out ++ [Output.reply SurveyReply.failure] }
  | some responses =>
    if responses.climate_human_causation = none ∨ responses.climate_human_causation = some 0 then
      { w with out := w.out ++ [Output.reply SurveyReply.failure] }
    else
      let r := classifyParticipant responses
      let participantData : Participant :=
        { participant_id := participant_id
          prolific_id := prolific_id
          timestamp_joined := now
          classification := r.classification
          classification_score := r.score
          survey_responses := responses }
      let w := saveParticipant participantData w
      let w := { w with activeParticipants := mapSet participant_id participantData w.activeParticipants }
      { w with out := w.out ++ [Output.reply (SurveyReply.success participant_id r.classification
          (decide (r.classification = Classification.neutral)))] }

/-! ## Sessions -/

/-- The result of `endSession(session_id, reason)` at time `now`. -/
def endSession (session_id : SessionId) (reason : Reason) (now : Time) (w : World) : World :=
  match mapGet session_id w.activeSessions with
  | none => w
  | some session =>
    let session : Session :=
      { session with
        status := Status.ended
        timestamp_end := some now
        conversation_duration_seconds := some (diffSeconds now session.timestamp_start)
        completion_status :=
          some (if reason = Reason.time_limit then CompletionStatus.completed
                else CompletionStatus.incomplete)
        message_count := some session.conversation.length }
    let w := { w with activeSessions := mapSet session_id session w.activeSessions }
    let w := saveSession session w
    let w :=
      if session.conversation.length > 0 then
        saveConversation
          { session_id := session_id
            conversation := session.conversation
            total_messages := session.conversation.length
            last_updated := none
            messages_per_participant :=
              some (session.participants.foldl
                (fun acc pid => mapSet pid
                  (session.conversation.filter (fun msg => decide (msg.sender = some pid))).length acc)
                [])
            conversation_duration_seconds := session.conversation_duration_seconds
            completion_reason := some reason } w
      else w
    let w := emit (Target.room session_id) (ServerEvent.conversation_ended reason) w
    setTimeout (TimerAction.removeSession session_id) 5000 now w

/-- The object literal `sessionData` of `tryToMatch`. -/
def newSessionData (session_id : SessionId) (now : Time)
    (proParticipant antiParticipant : QueueEntry) : Session :=
  { session_id := session_id
    timestamp_start := now
    participants := [proParticipant.participant_id, antiParticipant.participant_id]
    pairing_time_seconds := diffSeconds now proParticipant.timestamp
    conversation := []
    status := Status.created
    connected_participants := []
    timestamp_end := none
    conversation_duration_seconds := none
    completion_status := none
    message_count := none
    participant_names := none }

/-- The function `tryToMatch`; `session_id` is the identifier it makes from
`uuidv4()` and `now` its `moment()`. -/
def tryToMatch (session_id : SessionId) (now : Time) (w : World) : World :=
  match w.waitingQueues.pro_climate, w.waitingQueues.anti_climate with
  | proParticipant :: proQueue, antiParticipant :: antiQueue =>
    let sessionData : Session := newSessionData session_id now proParticipant antiParticipant
    let w := { w with
      waitingQueues := { pro_climate := proQueue, anti_climate := antiQueue }
      activeSessions := mapSet session_id sessionData w.activeSessions }
    let w := saveSession sessionData w
    match getSocket proParticipant.socket_id w, getSocket antiParticipant.socket_id w with
    | some _, some _ =>
      let w := updateSocket proParticipant.socket_id (joinRoom session_id) w
      let w := updateSocket antiParticipant.socket_id (joinRoom session_id) w
      let w := updateSocket proParticipant.socket_id
        (fun s => { s with session_id := some session_id }) w
      let w := updateSocket antiParticipant.socket_id
        (fun s => { s with session_id := some session_id }) w
      let w := emit (Target.socket proParticipant.socket_id) (ServerEvent.match_found session_id) w
      let w := emit (Target.socket antiParticipant.socket_id) (ServerEvent.match_found session_id) w
      setTimeout (TimerAction.timeLimit session_id) 300000 now w
    | _, _ => w
  | _, _ => w

/-! ## Socket handlers

Each handler takes the id of the socket it runs on. -/

/-- A new connection: a socket object without any of the stored properties. -/
def connect (socket : SocketId) (w : World) : World :=
  { w with sockets := w.sockets ++
      [{ id := socket, participant_id := none, classification := none,
         session_id := none, rooms := [] }] }

/-- The handler of `join_queue`; `enqueued` is the `moment()` of the queue
entry, `session_id` and `now` are the `uuidv4()` and the `moment()` that
`tryToMatch` draws. -/
def join_queue (socket : SocketId) (participant_id : ParticipantId) (session_id : SessionId)
    (enqueued now : Time) (w : World) : World :=
  match mapGet participant_id w.activeParticipants with
  | none => emit (Target.socket socket) (ServerEvent.error ErrorMessage.participant_not_found) w
  | some participant =>
    let entry : QueueEntry :=
      { participant_id := participant_id, socket_id := socket, timestamp := enqueued }
    match participant.classification with
    | Classification.pro_climate =>
      let w := { w with waitingQueues :=
        { w.waitingQueues with pro_climate := w.waitingQueues.pro_climate ++ [entry] } }
      let w := updateSocket socket (fun s => { s with
        participant_id := some participant_id
        classification := some Classification.pro_climate }) w
      let w := tryToMatch session_id now w
      emit (Target.socket socket)
        (ServerEvent.queue_status w.waitingQueues.pro_climate.length Classification.anti_climate) w
    | Classification.anti_climate =>
      let w := { w with waitingQueues :=
        { w.waitingQueues with anti_climate := w.waitingQueues.anti_climate ++ [entry] } }
      let w := updateSocket socket (fun s => { s with
        participant_id := some participant_id
        classification := some Classification.anti_climate }) w
      let w := tryToMatch session_id now w
      emit (Target.socket socket)
        (ServerEvent.queue_status w.waitingQueues.anti_climate.length Classification.pro_climate) w
    | Classification.neutral => w

/-- The introduction of one participant in `session_joined`. -/
def introduction (pid : ParticipantId) (participant : Participant) : Introduction :=
  { participant_id := pid
    participant_name :=
      ofAscii "Participant " ++
        (if participant.classification = Classification.pro_climate then ofAscii "A"
         else ofAscii "B")
    classification := participant.classification
    personal_views := participant.survey_responses.overall_perspective.take 200 ++ ofAscii "..."
    influencing_factors := participant.survey_responses.opinion_influences.take 150 ++ ofAscii "..." }

/-- The handler of `join_session`. `connected_participants` is an array from
the creation of the session on, so its re-initialisation never runs. -/
def join_session (socket : SocketId) (session_id : SessionId) (participant_id : ParticipantId)
    (w : World) : World :=
  match mapGet session_id w.activeSessions with
  | none =>
    emit (Target.socket socket) (ServerEvent.error ErrorMessage.session_not_found_or_has_ended) w
  | some session =>
    if ¬ participant_id ∈ session.participants then
      emit (Target.socket socket) (ServerEvent.error ErrorMessage.not_part_of_this_session) w
    else if session.status = Status.ended then
      emit (Target.socket socket) (ServerEvent.conversation_ended Reason.session_ended) w
    else
      let w := updateSocket socket (fun s =>
        { joinRoom session_id s with
          session_id := some session_id
          participant_id := some participant_id }) w
      let session : Session :=
        if participant_id ∈ session.connected_participants then session
        else { session with
          connected_participants := session.connected_participants ++ [participant_id] }
      if session.connected_participants.length = 2 then
        let introductions : List Introduction :=
          session.participants.filterMap (fun pid =>
            (mapGet pid w.activeParticipants).map (introduction pid))
        let participantNames : List (ParticipantId × JSString) :=
          introductions.foldl
            (fun names intro => mapSet intro.participant_id intro.participant_name names) []
        let session : Session :=
          { session with status := Status.active, participant_names := some participantNames }
        let w := { w with activeSessions := mapSet session_id session w.activeSessions }
        emit (Target.room session_id)
          (ServerEvent.session_joined introductions participantNames) w
      else
        { w with activeSessions := mapSet session_id session w.activeSessions }

/-- The handler of `send_message` at time `now`, for a payload whose `message`
is a string. -/
def send_message (socket : SocketId) (session_id : SessionId) (message : JSString)
    (now : Time) (w : World) : World :=
  match mapGet session_id w.activeSessions with
  | none => emit (Target.socket socket) (ServerEvent.error ErrorMessage.session_not_found) w
  | some session =>
    let elapsed := diffSeconds now session.timestamp_start
    if elapsed ≥ 300 then
      emit (Target.socket socket) (ServerEvent.conversation_ended Reason.time_limit) w
    else
      let messageObj : Message :=
        { timestamp := now
          sender := (getSocket socket w).bind (fun s => s.participant_id)
          message := message.take 500
          character_count := message.length }
      let session : Session :=
        { session with conversation := session.conversation ++ [messageObj] }
      let w := { w with activeSessions := mapSet session_id session w.activeSessions }
      let w := emit (Target.room session_id) (ServerEvent.receive_message messageObj) w
      saveConversation
        { session_id := session_id
          conversation := session.conversation
          total_messages := session.conversation.length
          last_updated := some now
          messages_per_participant := none
          conversation_duration_seconds := none
          completion_reason := none } w

def typing_start (socket : SocketId) (session_id : SessionId) (w : World) : World :=
  emit (Target.roomExcept session_id socket) ServerEvent.typing_start w

def typing_stop (socket : SocketId) (session_id : SessionId) (w : World) : World :=
  emit (Target.roomExcept session_id socket) ServerEvent.typing_stop w

def leave_session (socket : SocketId) (session_id : SessionId) (w : World) : World :=
  let w := emit (Target.roomExcept session_id socket) ServerEvent.participant_disconnected w
  updateSocket socket (leaveRoom session_id) w

/-- The handler of `leave_chat_early` at time `now`. -/
def leave_chat_early (socket : SocketId) (session_id : SessionId) (now : Time)
    (w : World) : World :=
  let w :=
    match mapGet session_id w.activeSessions with
    | some session =>
      if session.status = Status.active then
        let w := emit (Target.roomExcept session_id socket) ServerEvent.participant_left_early w
        endSession session_id Reason.participant_left_early now w
      else w
    | none => w
  updateSocket socket (leaveRoom session_id) w

/-- The first block of the `disconnect` handler: the entries of the socket
leave the queue named by `socket.classification` (only ever set to one of the
two queue names). -/
def removeFromQueues (classification : Option Classification) (socket : SocketId)
    (w : World) : World :=
  match classification with
  | some Classification.pro_climate =>
    { w with waitingQueues := { w.waitingQueues with
        pro_climate := w.waitingQueues.pro_climate.filter
          (fun item => decide (item.socket_id ≠ socket)) } }
  | some Classification.anti_climate =>
    { w with waitingQueues := { w.waitingQueues with
        anti_climate := w.waitingQueues.anti_climate.filter
          (fun item => decide (item.socket_id ≠ socket)) } }
  | _ => w

/-- The second block of the `disconnect` handler, for a socket that has both
`session_id` and `participant_id`: the participant leaves the connected set of
a session that has not ended and the 10-second check is scheduled. -/
def startGracePeriod (session_id : SessionId) (participant_id : ParticipantId)
    (socket : SocketId) (now : Time) (w : World) : World :=
  match mapGet session_id w.activeSessions with
  | some session =>
    if session.status ≠ Status.ended then
      let session : Session :=
        { session with connected_participants :=
            session.connected_participants.filter (fun pid => decide (pid ≠ participant_id)) }
      let w := { w with activeSessions := mapSet session_id session w.activeSessions }
      setTimeout (TimerAction.reconnectCheck session_id participant_id socket) 10000 now w
    else w
  | none => w

/-- The handler of `disconnect` at time `now`. Socket.io has already taken the
socket out of `io.sockets.sockets` when the handler runs. -/
def disconnect (socket : SocketId) (now : Time) (w : World) : World :=
  match getSocket socket w with
  | none => w
  | some s =>
    let w := { w with sockets := w.sockets.filter (fun x => decide (x.id ≠ socket)) }
    let w := removeFromQueues s.classification socket w
    match s.session_id, s.participant_id with
    | some session_id, some participant_id =>
      startGracePeriod session_id participant_id socket now w
    | _, _ => w

/-! ## Deferred callbacks -/

/-- The body of a `setTimeout` callback, run at time `now`. -/
def runTimer (action : TimerAction) (now : Time) (w : World) : World :=
  match action with
  | TimerAction.timeLimit session_id => endSession session_id Reason.time_limit now w
  | TimerAction.reconnectCheck session_id participant_id socket =>
    match mapGet session_id w.activeSessions with
    | some currentSession =>
      if currentSession.status ≠ Status.ended then
        if ¬ participant_id ∈ currentSession.connected_participants then
          let w := emit (Target.roomExcept session_id socket) ServerEvent.participant_disconnected w
          setTimeout (TimerAction.finalCheck session_id participant_id socket) 20000 now w
        else w
      else w
    | none => w
  | TimerAction.finalCheck session_id participant_id _ =>
    match mapGet session_id w.activeSessions with
    | some finalSession =>
      if finalSession.status ≠ Status.ended then
        if ¬ participant_id ∈ finalSession.connected_participants then
          endSession session_id Reason.participant_disconnect now w
        else w
      else w
    | none => w
  | TimerAction.removeSession session_id =>
    { w with activeSessions := mapDelete session_id w.activeSessions }

/-! ## The event loop -/

/-- What the process can receive: an HTTP survey submission, a new socket
connection, a socket event, or the firing of a pending timer. -/
inductive Input
  | submit_survey (participant_id : ParticipantId) (prolific_id : JSString)
      (survey_responses : Option SurveyResponses) (now : Time)
  | connect (socket : SocketId)
  | join_queue (socket : SocketId) (participant_id : ParticipantId) (session_id : SessionId)
      (enqueued now : Time)
  | join_session (socket : SocketId) (session_id : SessionId) (participant_id : ParticipantId)
  | send_message (socket : SocketId) (session_id : SessionId) (message : JSString) (now : Time)
  | typing_start (socket : SocketId) (session_id : SessionId)
  | typing_stop (socket : SocketId) (session_id : SessionId)
  | leave_session (socket : SocketId) (session_id : SessionId)
  | leave_chat_early (socket : SocketId) (session_id : SessionId) (now : Time)
  | disconnect (socket : SocketId) (now : Time)
  | timeout (timer : Timer) (now : Time)
deriving DecidableEq

/-- A socket event is handled only on a connected socket. -/
def onSocket (socket : SocketId) (handler : World → World) (w : World) : World :=
  if (getSocket socket w).isSome then handler w else w

/-- One turn of the event loop. A socket event reaches its handler only on a
connected socket, a connection needs an id that is not in use, and only a
pending timer fires (and is pending no longer). Inputs are not ordered by their
clock values and a pending timer may fire at any `now`: the runs of the model
include every run of the process. -/
def step (w : World) (i : Input) : World :=
  match i with
  | Input.submit_survey participant_id prolific_id survey_responses now =>
    submit_survey participant_id prolific_id survey_responses now w
  | Input.connect socket =>
    if (getSocket socket w).isSome then w else connect socket w
  | Input.join_queue socket participant_id session_id enqueued now =>
    onSocket socket (join_queue socket participant_id session_id enqueued now) w
  | Input.join_session socket session_id participant_id =>
    onSocket socket (join_session socket session_id participant_id) w
  | Input.send_message socket session_id message now =>
    onSocket socket (send_message socket session_id message now) w
  | Input.typing_start socket session_id => onSocket socket (typing_start socket session_id) w
  | Input.typing_stop socket session_id => onSocket socket (typing_stop socket session_id) w
  | Input.leave_session socket session_id => onSocket socket (leave_session socket session_id) w
  | Input.leave_chat_early socket session_id now =>
    onSocket socket (leave_chat_early socket session_id now) w
  | Input.disconnect socket now => disconnect socket now w
  | Input.timeout timer now =>
    if timer ∈ w.timers then runTimer timer.action now { w with timers := w.timers.erase timer }
    else w

/-- The state after a sequence of inputs. -/
def run (w : World) (inputs : List Input) : World := inputs.foldl step w

/-- The contract of `uuidv4()`: the identifier generated for a new participant
is not the key of a registered participant, and the identifier generated for a
new session is not the key of a live session. -/
def admissible (w : World) (i : Input) : Bool :=
  match i with
  | Input.submit_survey participant_id _ _ _ => (mapGet participant_id w.activeParticipants).isNone
  | Input.join_queue _ _ session_id _ _ => (mapGet session_id w.activeSessions).isNone
  | _ => true

/-- Every input of the sequence is admissible in the state it arrives in. -/
def valid (w : World) : List Input → Bool
  | [] => true
  | i :: rest => admissible w i && valid (step w i) rest

/-- The participant identifiers of the `join_queue` events of a sequence. -/
def joinQueuePids : List Input → List ParticipantId
  | [] => []
  | Input.join_queue _ participant_id _ _ _ :: rest => participant_id :: joinQueuePids rest
  | _ :: rest => joinQueuePids rest

/-- The classification recorded for a participant identifier. -/
def classificationOf (w : World) (pid : ParticipantId) : Option Classification :=
  (mapGet pid w.activeParticipants).map (fun p => p.classification)

/-! ## Transition summaries

What one turn of the event loop can do to the registry, the queues and the
live sessions, as far as the invariants below are concerned. -/

/-- A session object after an in-place update: the participants and the start
timestamp are the same, the conversation is the same or has one more message,
accepted less than 300 seconds after the start. -/
def SessionKept (s s' : Session) : Prop :=
  s'.participants = s.participants ∧ s'.timestamp_start = s.timestamp_start ∧
  (s'.conversation = s.conversation ∨
    ∃ m, s'.conversation = s.conversation ++ [m] ∧
      diffSeconds m.timestamp s.timestamp_start < 300)

/-- Every live session of the later map is a kept session of the earlier one. -/
def SessionsKept (S S' : List (SessionId × Session)) : Prop :=
  ∀ p' ∈ S', ∃ s, (p'.1, s) ∈ S ∧ SessionKept s p'.2

/-- A turn that registers nobody and enqueues nobody. -/
def Evolves (w w' : World) : Prop :=
  w'.activeParticipants = w.activeParticipants ∧
  w'.waitingQueues.pro_climate.Sublist w.waitingQueues.pro_climate ∧
  w'.waitingQueues.anti_climate.Sublist w.waitingQueues.anti_climate ∧
  SessionsKept w.activeSessions w'.activeSessions

/-- A successful survey submission. -/
def Registers (w : World) (i : Input) (w' : World) : Prop :=
  ∃ participant_id prolific_id responses now participantData,
    i = Input.submit_survey participant_id prolific_id responses now ∧
    w'.activeParticipants = mapSet participant_id participantData w.activeParticipants ∧
    w'.waitingQueues = w.waitingQueues ∧ w'.activeSessions = w.activeSessions

/-- The effect of `tryToMatch` on queues `q` and sessions `S`: nothing, or the
two heads leave the queues and a session of the two is stored. -/
def Matched (session_id : SessionId) (now : Time) (q : WaitingQueues)
    (S : List (SessionId × Session)) (q' : WaitingQueues) (S' : List (SessionId × Session)) :
    Prop :=
  ((q.pro_climate = [] ∨ q.anti_climate = []) ∧ q' = q ∧ S' = S) ∨
  ∃ e1 r1 e2 r2 s, q.pro_climate = e1 :: r1 ∧ q.anti_climate = e2 :: r2 ∧
    q' = { pro_climate := r1, anti_climate := r2 } ∧
    S' = mapSet session_id s S ∧
    s.participants = [e1.participant_id, e2.participant_id] ∧
    s.conversation = [] ∧ s.timestamp_start = now ∧ s.status = Status.created ∧
    s.pairing_time_seconds = diffSeconds now e1.timestamp

/-- A `join_queue` of a registered pro or anti participant: the entry is pushed
on the queue of the participant's classification, then `tryToMatch` runs. -/
def Enqueues (w : World) (i : Input) (w' : World) : Prop :=
  ∃ socket participant_id session_id enqueued now q,
    i = Input.join_queue socket participant_id session_id enqueued now ∧
    w'.activeParticipants = w.activeParticipants ∧
    ((classificationOf w participant_id = some Classification.pro_climate ∧
      q = { w.waitingQueues with pro_climate := w.waitingQueues.pro_climate ++
        [{ participant_id := participant_id, socket_id := socket, timestamp := enqueued }] }) ∨
     (classificationOf w participant_id = some Classification.anti_climate ∧
      q = { w.waitingQueues with anti_climate := w.waitingQueues.anti_climate ++
        [{ participant_id := participant_id, socket_id := socket, timestamp := enqueued }] })) ∧
    Matched session_id now q w.activeSessions w'.waitingQueues w'.activeSessions

/-! ## Invariants -/

/-- Every entry of a queue belongs to a participant of that classification. -/
def QueuesClassified (w : World) : Prop :=
  (∀ e ∈ w.waitingQueues.pro_climate,
    classificationOf w e.participant_id = some Classification.pro_climate) ∧
  (∀ e ∈ w.waitingQueues.anti_climate,
    classificationOf w e.participant_id = some Classification.anti_climate)

/-- Every live session pairs a pro participant (first) with an anti participant
(second). -/
def SessionsOpposed (w : World) : Prop :=
  ∀ p ∈ w.activeSessions, ∃ a b, p.2.participants = [a, b] ∧
    classificationOf w a = some Classification.pro_climate ∧
    classificationOf w b = some Classification.anti_climate

/-- Every logged message was accepted less than 300 seconds after the start. -/
def MessagesInTime (w : World) : Prop :=
  ∀ p ∈ w.activeSessions, ∀ m ∈ p.2.conversation,
    diffSeconds m.timestamp p.2.timestamp_start < 300

/-- The participant identifiers of the entries of both queues. -/
def queuePids (q : WaitingQueues) : List ParticipantId :=
  (q.pro_climate ++ q.anti_climate).map (fun e => e.participant_id)

/-- The participant identifiers that are waiting in a queue. -/
def queuedPids (w : World) : List ParticipantId := queuePids w.waitingQueues

/-- With `seen` the identifiers `join_queue` was sent for: nobody is queued
twice, and whoever is queued or matched was seen, never both queued and matched. -/
def QueuedOnce (seen : List ParticipantId) (w : World) : Prop :=
  (queuedPids w).Nodup ∧ (∀ x ∈ queuedPids w, x ∈ seen) ∧
  ∀ p ∈ w.activeSessions, ∀ x ∈ p.2.participants, x ∈ seen ∧ x ∉ queuedPids w

/-- At least one of the two queues is empty. -/
def OneQueueEmpty (w : World) : Prop :=
  w.waitingQueues.pro_climate = [] ∨ w.waitingQueues.anti_climate = []

/-- The 10-second check of participant `pid` in session `sid` has nothing to
do: the session is gone, or ended, or has the participant connected. -/
def CheckSilent (sid : SessionId) (pid : ParticipantId) (S : List (SessionId × Session)) : Prop :=
  ∀ s, mapGet sid S = some s → s.status = Status.ended ∨ pid ∈ s.connected_participants

/-- In the sequence of inputs, no socket that carries participant `pid`
disconnects, and `uuidv4()` does not produce the session identifier `sid`
again. -/
def undisturbed (sid : SessionId) (pid : ParticipantId) (w : World) : List Input → Bool
  | [] => true
  | Input.disconnect socket now :: rest =>
    decide ((getSocket socket w).bind (fun sk => sk.participant_id) ≠ some pid) &&
      undisturbed sid pid (step w (Input.disconnect socket now)) rest
  | Input.join_queue socket participant_id session_id enqueued now :: rest =>
    decide (session_id ≠ sid) &&
      undisturbed sid pid
        (step w (Input.join_queue socket participant_id session_id enqueued now)) rest
  | i :: rest => undisturbed sid pid (step w i) rest

/-- The participants of the session objects handed to `saveSession`, in the
order of the calls. `saveSession` is called by `tryToMatch` on the session it
has just created and by `endSession` on a live session, so these are the
participants who have been matched into a session so far, also those of
sessions that have left live memory. -/
def savedPids : List Output → List ParticipantId
  | [] => []
  | Output.saveSession sessionData :: rest => sessionData.participants ++ savedPids rest
  | _ :: rest => savedPids rest

/-- The participants who have been matched into a session by `tryToMatch`. -/
def everMatched (w : World) : List ParticipantId := savedPids w.out

/-- Every `join_queue` of the sequence that names participant `x` arrives when
`x` has no entry in either queue and has not been matched. -/
def joinsWhenIdle (x : ParticipantId) (w : World) : List Input → Bool
  | [] => true
  | Input.join_queue socket participant_id session_id enqueued now :: rest =>
    (decide (participant_id ≠ x) ||
        (decide (x ∉ queuedPids w) && decide (x ∉ everMatched w))) &&
      joinsWhenIdle x
        (step w (Input.join_queue socket participant_id session_id enqueued now)) rest
  | i :: rest => joinsWhenIdle x (step w i) rest

/-- Every participant of a live session has been saved with it. -/
def LiveSaved (w : World) : Prop :=
  ∀ p ∈ w.activeSessions, ∀ y ∈ p.2.participants, y ∈ savedPids w.out

/-- What a turn does to the saved sessions: none is lost, and a newly saved
participant belongs to a session that is live after the turn. -/
def OutStep (w w' : World) : Prop :=
  (∀ y ∈ savedPids w.out, y ∈ savedPids w'.out) ∧
  (∀ y ∈ savedPids w'.out, y ∈ savedPids w.out ∨
    ∃ p ∈ w'.activeSessions, y ∈ p.2.participants)

/-- Participant `x` has at most one queue entry, and none once matched. -/
def MatchedClear (x : ParticipantId) (w : World) : Prop :=
  (queuedPids w).count x ≤ 1 ∧ (x ∈ savedPids w.out → x ∉ queuedPids w)

/-! ## Example runs -/

/-- The survey payload of a participant with the given score. -/
def sampleResponses (score : Int) : SurveyResponses :=
  { climate_human_causation := some score
    overall_perspective := ofAscii "view"
    opinion_influences := ofAscii "news" }

/-- Participant 101 (score 6) and participant 102 (score 2) register, connect
on sockets 1 and 2 and join the queues; the second `join_queue`, at 2000 ms,
matches them into session 901. -/
def matchedRun : List Input :=
  [ Input.connect 1, Input.connect 2,
    Input.submit_survey 101 [] (some (sampleResponses 6)) 0,
    Input.submit_survey 102 [] (some (sampleResponses 2)) 0,
    Input.join_queue 1 101 900 1000 1000,
    Input.join_queue 2 102 901 2000 2000 ]

/-- The session that `matchedRun` creates. -/
def matchedSession : Session :=
  newSessionData 901 2000
    { participant_id := 101, socket_id := 1, timestamp := 1000 }
    { participant_id := 102, socket_id := 2, timestamp := 2000 }

/-- After `matchedRun` both participants join the session, one message is
sent, and participant 101 leaves early 297 seconds after the start. -/
def earlyExitRun : List Input :=
  matchedRun ++
  [ Input.join_session 1 901 101,
    Input.join_session 2 901 102,
    Input.send_message 1 901 (ofAscii "hello") 12000,
    Input.leave_chat_early 1 901 299000 ]

/-- After `matchedRun` both participants join the session, which becomes
active, and a third socket connects. -/
def activeRun : List Input :=
  matchedRun ++
  [ Input.join_session 1 901 101,
    Input.join_session 2 901 102,
    Input.connect 3 ]

/-- The session 901 at the end of `activeRun`. -/
def activeSession : Session :=
  { matchedSession with
    status := Status.active
    connected_participants := [101, 102]
    participant_names := some [(101, ofAscii "Participant A"), (102, ofAscii "Participant B")] }

/-- After `activeRun` participant 101 sends the message "hello" at 12000 ms. -/
def chatRun : List Input :=
  activeRun ++ [Input.send_message 1 901 (ofAscii "hello") 12000]

/-- The session 901 at the end of `chatRun`. -/
def chatSession : Session :=
  { activeSession with
    conversation :=
      [{ timestamp := 12000, sender := some 101, message := ofAscii "hello",
         character_count := 5 }] }

/-- The 5-minute timer that `tryToMatch` armed for session 901 in `matchedRun`. -/
def timeLimitTimer : Timer := { due := 302000, action := TimerAction.timeLimit 901 }

/-- As `matchedRun`, but `join_queue` is sent twice for participant 101 before
participant 102 joins. -/
def doubleJoinRun : List Input :=
  [ Input.connect 1, Input.connect 2,
    Input.submit_survey 101 [] (some (sampleResponses 6)) 0,
    Input.submit_survey 102 [] (some (sampleResponses 2)) 0,
    Input.join_queue 1 101 900 1000 1000,
    Input.join_queue 1 101 901 1500 1500,
    Input.join_queue 2 102 902 2000 2000 ]

/-- A state with two entries waiting in each queue. -/
def crowdedWorld : World :=
  { World.init with waitingQueues :=
      { pro_climate := [{ participant_id := 101, socket_id := 1, timestamp := 1000 },
                        { participant_id := 103, socket_id := 3, timestamp := 1200 }]
        anti_climate := [{ participant_id := 102, socket_id := 2, timestamp := 1100 },
                         { participant_id := 104, socket_id := 4, timestamp := 1300 }] } }

/-- The anti participant 102 joins the queue first, at 1000 ms; the pro
participant 101 joins 60 seconds later, at 61000 ms, and that `join_queue`
matches them into session 901. -/
def antiFirstRun : List Input :=
  [ Input.connect 1, Input.connect 2,
    Input.submit_survey 101 [] (some (sampleResponses 6)) 0,
    Input.submit_survey 102 [] (some (sampleResponses 2)) 0,
    Input.join_queue 2 102 900 1000 1000,
    Input.join_queue 1 101 901 61000 61000 ]

/-- The state in which `tryToMatch` runs in the last `join_queue` of
`antiFirstRun`: the entry of participant 101 has just been pushed on the pro
queue, behind nobody, while the entry of participant 102 waits in the anti
queue. -/
def antiFirstCallState : World :=
  updateSocket 1
    (fun s => { s with
      participant_id := some 101
      classification := some Classification.pro_climate })
    { run World.init (antiFirstRun.take 5) with
      waitingQueues :=
        { (run World.init (antiFirstRun.take 5)).waitingQueues with
          pro_climate := (run World.init (antiFirstRun.take 5)).waitingQueues.pro_climate ++
            [{ participant_id := 101, socket_id := 1, timestamp := 61000 }] } }

/-- Participant 101 joins the queue on socket 1, which then disconnects (the
entry leaves the queue); the participant joins again on socket 3 and is
matched with participant 102 into session 902. `join_queue` is sent twice for
participant 101, each time while the participant is neither queued nor
matched. -/
def refreshRun : List Input :=
  [ Input.connect 1, Input.connect 2,
    Input.submit_survey 101 [] (some (sampleResponses 6)) 0,
    Input.submit_survey 102 [] (some (sampleResponses 2)) 0,
    Input.join_queue 1 101 900 1000 1000,
    Input.disconnect 1 5000,
    Input.connect 3,
    Input.join_queue 3 101 901 8000 8000,
    Input.join_queue 2 102 902 9000 9000 ]

/-- After `matchedRun`, `join_queue` is sent once more for participant 101, who
is already matched into session 901. -/
def rejoinRun : List Input :=
  matchedRun ++ [Input.join_queue 1 101 902 3000 3000]

/-- After `activeRun`: socket 1 of participant 101 drops at 20000 ms and the
participant rejoins session 901 on socket 3. The chat page is then loaded once
more: its new socket 4 joins the session, and the socket 3 of the page it
replaces closes at 25000 ms. -/
def reloadRun : List Input :=
  activeRun ++
  [ Input.disconnect 1 20000,
    Input.join_session 3 901 101,
    Input.connect 4,
    Input.join_session 4 901 101,
    Input.disconnect 3 25000 ]

/-- The 10-second check scheduled by the disconnect of socket 1 in `reloadRun`. -/
def firstCheckTimer : Timer :=
  { due := 30000, action := TimerAction.reconnectCheck 901 101 1 }

/-- The 20-second check that `firstCheckTimer` schedules when it fires at 30000 ms. -/
def finalCheckTimer : Timer :=
  { due := 50000, action := TimerAction.finalCheck 901 101 1 }

/-- After `reloadRun` the pending checks fire when they are due: the check of
the first drop at 30000 ms, the check of the drop of socket 3 at 35000 ms, and
the second-stage check of the first drop at 50000 ms. -/
def reloadEndRun : List Input :=
  reloadRun ++
  [ Input.timeout firstCheckTimer 30000,
    Input.timeout { due := 35000, action := TimerAction.reconnectCheck 901 101 3 } 35000,
    Input.timeout finalCheckTimer 50000 ]

/-! ## Lemmas on maps -/

theorem mem_of_mapGet {ν : Type} {k : Nat} {v : ν} {m : List (Nat × ν)}
    (h : mapGet k m = some v) : (k, v) ∈ m := by
  induction m with
  | nil => simp [mapGet] at h
  | cons e rest ih =>
    obtain ⟨k', v'⟩ := e
    unfold mapGet at h
    split at h
    · next hk =>
      cases h
      subst hk
      exact List.mem_cons_self _ _
    · exact List.mem_cons_of_mem _ (ih h)

theorem mem_mapSet {ν : Type} {k : Nat} {v : ν} {m : List (Nat × ν)} {p : Nat × ν}
    (h : p ∈ mapSet k v m) : p = (k, v) ∨ p ∈ m := by
  induction m with
  | nil =>
    left
    simpa [mapSet] using h
  | cons e rest ih =>
    obtain ⟨k', v'⟩ := e
    unfold mapSet at h
    split at h
    · rcases List.mem_cons.mp h with h | h
      · exact Or.inl h
      · exact Or.inr (List.mem_cons_of_mem _ h)
    · rcases List.mem_cons.mp h with h | h
      · exact Or.inr (h ▸ List.mem_cons_self _ _)
      · rcases ih h with h | h
        · exact Or.inl h
        · exact Or.inr (List.mem_cons_of_mem _ h)

theorem mapGet_mapSet_self {ν : Type} (k : Nat) (v : ν) (m : List (Nat × ν)) :
    mapGet k (mapSet k v m) = some v := by
  induction m with
  | nil => simp [mapSet, mapGet]
  | cons e rest ih =>
    obtain ⟨k', v'⟩ := e
    by_cases hk : k' = k
    · simp [mapSet, mapGet, hk]
    · simp [mapSet, mapGet, hk, ih]

theorem mapGet_mapSet_ne {ν : Type} {k k' : Nat} (v : ν) (m : List (Nat × ν)) (h : k' ≠ k) :
    mapGet k' (mapSet k v m) = mapGet k' m := by
  induction m with
  | nil => simp [mapSet, mapGet, Ne.symm h]
  | cons e rest ih =>
    obtain ⟨k0, v0⟩ := e
    by_cases hk : k0 = k
    · subst hk
      simp [mapSet, mapGet, Ne.symm h]
    · by_cases hk2 : k0 = k'
      · subst hk2
        simp [mapSet, mapGet, hk]
      · simp [mapSet, mapGet, hk, hk2, ih]

theorem mem_mapDelete {ν : Type} {k : Nat} {m : List (Nat × ν)} {p : Nat × ν}
    (h : p ∈ mapDelete k m) : p ∈ m :=
  (List.mem_filter.mp h).1

/-! ## Frame lemmas: what the primitives leave alone -/

@[simp] theorem emit_activeSessions (t : Target) (e : ServerEvent) (w : World) :
    (emit t e w).activeSessions = w.activeSessions := rfl

@[simp] theorem emit_waitingQueues (t : Target) (e : ServerEvent) (w : World) :
    (emit t e w).waitingQueues = w.waitingQueues := rfl

@[simp] theorem emit_activeParticipants (t : Target) (e : ServerEvent) (w : World) :
    (emit t e w).activeParticipants = w.activeParticipants := rfl

@[simp] theorem emit_timers (t : Target) (e : ServerEvent) (w : World) :
    (emit t e w).timers = w.timers := rfl

@[simp] theorem emit_sockets (t : Target) (e : ServerEvent) (w : World) :
    (emit t e w).sockets = w.sockets := rfl

@[simp] theorem emit_out (t : Target) (e : ServerEvent) (w : World) :
    (emit t e w).out = w.out ++ [Output.emit t e] := rfl

@[simp] theorem saveSession_activeSessions (s : Session) (w : World) :
    (saveSession s w).activeSessions = w.activeSessions := rfl

@[simp] theorem saveSession_waitingQueues (s : Session) (w : World) :
    (saveSession s w).waitingQueues = w.waitingQueues := rfl

@[simp] theorem saveSession_activeParticipants (s : Session) (w : World) :
    (saveSession s w).activeParticipants = w.activeParticipants := rfl

@[simp] theorem saveSession_timers (s : Session) (w : World) :
    (saveSession s w).timers = w.timers := rfl

@[simp] theorem saveSession_sockets (s : Session) (w : World) :
    (saveSession s w).sockets = w.sockets := rfl

@[simp] theorem saveSession_out (s : Session) (w : World) :
    (saveSession s w).out = w.out ++ [Output.saveSession s] := rfl

@[simp] theorem saveConversation_activeSessions (c : ConversationData) (w : World) :
    (saveConversation c w).activeSessions = w.activeSessions := rfl

@[simp] theorem saveConversation_waitingQueues (c : ConversationData) (w : World) :
    (saveConversation c w).waitingQueues = w.waitingQueues := rfl

@[simp] theorem saveConversation_activeParticipants (c : ConversationData) (w : World) :
    (saveConversation c w).activeParticipants = w.activeParticipants := rfl

@[simp] theorem saveConversation_timers (c : ConversationData) (w : World) :
    (saveConversation c w).timers = w.timers := rfl

@[simp] theorem saveConversation_sockets (c : ConversationData) (w : World) :
    (saveConversation c w).sockets = w.sockets := rfl

@[simp] theorem saveConversation_out (c : ConversationData) (w : World) :
    (saveConversation c w).out = w.out ++ [Output.saveConversation c] := rfl

@[simp] theorem setTimeout_activeSessions (a : TimerAction) (d : Int) (now : Time) (w : World) :
    (setTimeout a d now w).activeSessions = w.activeSessions := rfl

@[simp] theorem setTimeout_waitingQueues (a : TimerAction) (d : Int) (now : Time) (w : World) :
    (setTimeout a d now w).waitingQueues = w.waitingQueues := rfl

@[simp] theorem setTimeout_activeParticipants (a : TimerAction) (d : Int) (now : Time)
    (w : World) : (setTimeout a d now w).activeParticipants = w.activeParticipants := rfl

@[simp] theorem setTimeout_timers (a : TimerAction) (d : Int) (now : Time) (w : World) :
    (setTimeout a d now w).timers = w.timers ++ [{ due := now + d, action := a }] := rfl

@[simp] theorem setTimeout_sockets (a : TimerAction) (d : Int) (now : Time) (w : World) :
    (setTimeout a d now w).sockets = w.sockets := rfl

@[simp] theorem setTimeout_out (a : TimerAction) (d : Int) (now : Time) (w : World) :
    (setTimeout a d now w).out = w.out := rfl

@[simp] theorem updateSocket_activeSessions (id : SocketId) (f : Socket → Socket) (w : World) :
    (updateSocket id f w).activeSessions = w.activeSessions := rfl

@[simp] theorem updateSocket_waitingQueues (id : SocketId) (f : Socket → Socket) (w : World) :
    (updateSocket id f w).waitingQueues = w.waitingQueues := rfl

@[simp] theorem updateSocket_activeParticipants (id : SocketId) (f : Socket → Socket)
    (w : World) : (updateSocket id f w).activeParticipants = w.activeParticipants := rfl

@[simp] theorem updateSocket_timers (id : SocketId) (f : Socket → Socket) (w : World) :
    (updateSocket id f w).timers = w.timers := rfl

@[simp] theorem updateSocket_out (id : SocketId) (f : Socket → Socket) (w : World) :
    (updateSocket id f w).out = w.out := rfl

/-! ## Every handler fits a transition summary -/

theorem sessionKept_refl (s : Session) : SessionKept s s := ⟨rfl, rfl, Or.inl rfl⟩

theorem sessionsKept_refl (S : List (SessionId × Session)) : SessionsKept S S :=
  fun p hp => ⟨p.2, hp, sessionKept_refl _⟩

theorem sessionsKept_mapSet {S : List (SessionId × Session)} {k : SessionId} {s s' : Session}
    (hg : mapGet k S = some s) (hk : SessionKept s s') : SessionsKept S (mapSet k s' S) := by
  intro p' hp'
  rcases mem_mapSet hp' with h | h
  · subst h
    exact ⟨s, mem_of_mapGet hg, hk⟩
  · exact ⟨p'.2, h, sessionKept_refl _⟩

theorem sessionsKept_mapDelete (S : List (SessionId × Session)) (k : SessionId) :
    SessionsKept S (mapDelete k S) :=
  fun p hp => ⟨p.2, mem_mapDelete hp, sessionKept_refl _⟩

theorem evolves_of_frame {w w' : World} (h1 : w'.activeParticipants = w.activeParticipants)
    (h2 : w'.waitingQueues = w.waitingQueues)
    (h3 : SessionsKept w.activeSessions w'.activeSessions) : Evolves w w' :=
  ⟨h1, h2 ▸ List.Sublist.refl _, h2 ▸ List.Sublist.refl _, h3⟩

theorem evolves_refl (w : World) : Evolves w w :=
  evolves_of_frame rfl rfl (sessionsKept_refl _)

@[simp] theorem endSession_activeParticipants (sid : SessionId) (r : Reason) (now : Time)
    (w : World) : (endSession sid r now w).activeParticipants = w.activeParticipants := by
  unfold endSession
  split
  · rfl
  · dsimp only
    split_ifs <;> rfl

@[simp] theorem endSession_waitingQueues (sid : SessionId) (r : Reason) (now : Time)
    (w : World) : (endSession sid r now w).waitingQueues = w.waitingQueues := by
  unfold endSession
  split
  · rfl
  · dsimp only
    split_ifs <;> rfl

@[simp] theorem endSession_sockets (sid : SessionId) (r : Reason) (now : Time)
    (w : World) : (endSession sid r now w).sockets = w.sockets := by
  unfold endSession
  split
  · rfl
  · dsimp only
    split_ifs <;> rfl

theorem endSession_activeSessions (sid : SessionId) (r : Reason) (now : Time) (w : World)
    (s : Session) (h : mapGet sid w.activeSessions = some s) :
    (endSession sid r now w).activeSessions =
      mapSet sid
        { s with
          status := Status.ended
          timestamp_end := some now
          conversation_duration_seconds := some (diffSeconds now s.timestamp_start)
          completion_status :=
            some (if r = Reason.time_limit then CompletionStatus.completed
                  else CompletionStatus.incomplete)
          message_count := some s.conversation.length } w.activeSessions := by
  unfold endSession
  rw [h]
  dsimp only
  split_ifs <;> rfl

theorem endSession_sessionsKept (sid : SessionId) (r : Reason) (now : Time) (w : World) :
    SessionsKept w.activeSessions (endSession sid r now w).activeSessions := by
  cases h : mapGet sid w.activeSessions with
  | none =>
    have : endSession sid r now w = w := by
      unfold endSession
      rw [h]
    rw [this]
    exact sessionsKept_refl _
  | some s =>
    rw [endSession_activeSessions sid r now w s h]
    exact sessionsKept_mapSet h ⟨rfl, rfl, Or.inl rfl⟩

theorem endSession_evolves (sid : SessionId) (r : Reason) (now : Time) (w : World) :
    Evolves w (endSession sid r now w) :=
  evolves_of_frame (by simp) (by simp) (endSession_sessionsKept sid r now w)

theorem join_session_evolves (socket : SocketId) (sid : SessionId) (pid : ParticipantId)
    (w : World) : Evolves w (join_session socket sid pid w) := by
  unfold join_session
  split
  · exact evolves_of_frame rfl rfl (sessionsKept_refl _)
  · next session hs =>
    dsimp only
    split_ifs
    all_goals first
      | exact evolves_of_frame rfl rfl (sessionsKept_refl _)
      | exact evolves_of_frame rfl rfl (sessionsKept_mapSet hs ⟨rfl, rfl, Or.inl rfl⟩)

theorem send_message_evolves (socket : SocketId) (sid : SessionId) (message : JSString)
    (now : Time) (w : World) : Evolves w (send_message socket sid message now w) := by
  unfold send_message
  split
  · exact evolves_of_frame rfl rfl (sessionsKept_refl _)
  · next session hs =>
    dsimp only
    split_ifs with hel
    · exact evolves_of_frame rfl rfl (sessionsKept_refl _)
    · refine evolves_of_frame rfl rfl (sessionsKept_mapSet hs ⟨rfl, rfl, Or.inr ⟨_, rfl, ?_⟩⟩)
      simpa using hel

theorem leave_chat_early_evolves (socket : SocketId) (sid : SessionId) (now : Time)
    (w : World) : Evolves w (leave_chat_early socket sid now w) := by
  unfold leave_chat_early
  split
  · dsimp only
    split_ifs
    · exact evolves_of_frame (by simp) (by simp)
        (by simpa using endSession_sessionsKept sid Reason.participant_left_early now
              (emit (Target.roomExcept sid socket) ServerEvent.participant_left_early w))
    · exact evolves_of_frame rfl rfl (sessionsKept_refl _)
  · exact evolves_of_frame rfl rfl (sessionsKept_refl _)

theorem evolves_trans_frame {w w1 w2 : World} (h : Evolves w w1)
    (hs : w1.activeSessions = w.activeSessions) (h2 : Evolves w1 w2) : Evolves w w2 :=
  ⟨h2.1.trans h.1, h2.2.1.trans h.2.1, h2.2.2.1.trans h.2.2.1, hs ▸ h2.2.2.2⟩

theorem removeFromQueues_evolves (c : Option Classification) (socket : SocketId) (w : World) :
    Evolves w (removeFromQueues c socket w) ∧
      (removeFromQueues c socket w).activeSessions = w.activeSessions := by
  unfold removeFromQueues
  split
  · exact ⟨⟨rfl, List.filter_sublist _, List.Sublist.refl _, sessionsKept_refl _⟩, rfl⟩
  · exact ⟨⟨rfl, List.Sublist.refl _, List.filter_sublist _, sessionsKept_refl _⟩, rfl⟩
  · exact ⟨evolves_refl w, rfl⟩

theorem startGracePeriod_evolves (sid : SessionId) (pid : ParticipantId) (socket : SocketId)
    (now : Time) (w : World) : Evolves w (startGracePeriod sid pid socket now w) := by
  unfold startGracePeriod
  split
  · next session hs =>
    split_ifs
    · exact evolves_of_frame rfl rfl (sessionsKept_mapSet hs ⟨rfl, rfl, Or.inl rfl⟩)
    · exact evolves_refl w
  · exact evolves_refl w

theorem disconnect_evolves (socket : SocketId) (now : Time) (w : World) :
    Evolves w (disconnect socket now w) := by
  unfold disconnect
  split
  · exact evolves_refl w
  · next s _ =>
    have h0 : Evolves w { w with sockets := w.sockets.filter (fun x => decide (x.id ≠ socket)) } :=
      evolves_of_frame rfl rfl (sessionsKept_refl _)
    have h1 := removeFromQueues_evolves s.classification socket
      { w with sockets := w.sockets.filter (fun x => decide (x.id ≠ socket)) }
    have h2 := evolves_trans_frame h0 rfl h1.1
    dsimp only
    split
    · exact evolves_trans_frame h2 h1.2 (startGracePeriod_evolves _ _ _ _ _)
    · exact h2

theorem runTimer_evolves (action : TimerAction) (now : Time) (w : World) :
    Evolves w (runTimer action now w) := by
  cases action with
  | timeLimit sid => exact endSession_evolves sid Reason.time_limit now w
  | reconnectCheck sid pid socket =>
    unfold runTimer
    dsimp only
    split
    · split_ifs <;> exact evolves_of_frame rfl rfl (sessionsKept_refl _)
    · exact evolves_refl w
  | finalCheck sid pid socket =>
    unfold runTimer
    dsimp only
    split
    · split_ifs
      all_goals first
        | exact evolves_refl w
        | exact endSession_evolves sid Reason.participant_disconnect now w
    · exact evolves_refl w
  | removeSession sid =>
    exact evolves_of_frame rfl rfl (sessionsKept_mapDelete _ _)

@[simp] theorem tryToMatch_activeParticipants (sid : SessionId) (now : Time) (w : World) :
    (tryToMatch sid now w).activeParticipants = w.activeParticipants := by
  unfold tryToMatch
  split
  · dsimp only
    split <;> rfl
  · rfl

theorem tryToMatch_matched (sid : SessionId) (now : Time) (w : World) :
    Matched sid now w.waitingQueues w.activeSessions
      (tryToMatch sid now w).waitingQueues (tryToMatch sid now w).activeSessions := by
  unfold tryToMatch
  split
  · next e1 r1 e2 r2 h1 h2 =>
    right
    refine ⟨e1, r1, e2, r2, newSessionData sid now e1 e2, h1, h2, ?_, ?_, rfl, rfl, rfl, rfl, rfl⟩
    · dsimp only
      split <;> rfl
    · dsimp only
      split <;> rfl
  · next hne =>
    left
    refine ⟨?_, rfl, rfl⟩
    cases hp : w.waitingQueues.pro_climate with
    | nil => exact Or.inl rfl
    | cons a l =>
      cases ha : w.waitingQueues.anti_climate with
      | nil => exact Or.inr rfl
      | cons b l2 => exact absurd ha (hne a l b l2 hp)

theorem tryToMatch_matched_of (sid : SessionId) (now : Time) (w1 : World) (q : WaitingQueues)
    (S : List (SessionId × Session)) (hq : w1.waitingQueues = q) (hS : w1.activeSessions = S) :
    Matched sid now q S (tryToMatch sid now w1).waitingQueues
      (tryToMatch sid now w1).activeSessions :=
  hq ▸ hS ▸ tryToMatch_matched sid now w1

theorem join_queue_cases (socket : SocketId) (pid : ParticipantId) (sid : SessionId)
    (enqueued now : Time) (w : World) :
    Evolves w (join_queue socket pid sid enqueued now w) ∨
      Enqueues w (Input.join_queue socket pid sid enqueued now)
        (join_queue socket pid sid enqueued now w) := by
  unfold join_queue
  split
  · exact Or.inl (evolves_of_frame rfl rfl (sessionsKept_refl _))
  · next participant hp =>
    have hc : classificationOf w pid = some participant.classification := by
      simp [classificationOf, hp]
    dsimp only
    split
    · next hcl =>
      right
      refine ⟨socket, pid, sid, enqueued, now, _, rfl, ?_, Or.inl ⟨hcl ▸ hc, rfl⟩, ?_⟩
      · simp
      · simp only [emit_waitingQueues, emit_activeSessions]
        exact tryToMatch_matched_of sid now _ _ _ rfl rfl
    · next hcl =>
      right
      refine ⟨socket, pid, sid, enqueued, now, _, rfl, ?_, Or.inr ⟨hcl ▸ hc, rfl⟩, ?_⟩
      · simp
      · simp only [emit_waitingQueues, emit_activeSessions]
        exact tryToMatch_matched_of sid now _ _ _ rfl rfl
    · exact Or.inl (evolves_refl w)

theorem submit_survey_cases (pid : ParticipantId) (prolific_id : JSString)
    (responses : Option SurveyResponses) (now : Time) (w : World) :
    Evolves w (submit_survey pid prolific_id responses now w) ∨
      Registers w (Input.submit_survey pid prolific_id responses now)
        (submit_survey pid prolific_id responses now w) := by
  unfold submit_survey
  split
  · exact Or.inl (evolves_of_frame rfl rfl (sessionsKept_refl _))
  · split_ifs
    · exact Or.inl (evolves_of_frame rfl rfl (sessionsKept_refl _))
    · exact Or.inr ⟨pid, prolific_id, _, now, _, rfl, rfl, rfl, rfl⟩

theorem onSocket_evolves {socket : SocketId} {handler : World → World} {w : World}
    (h : Evolves w (handler w)) : Evolves w (onSocket socket handler w) := by
  unfold onSocket
  split_ifs
  · exact h
  · exact evolves_refl w

/-- Every turn of the event loop fits one of the three summaries. -/
theorem step_cases (w : World) (i : Input) :
    Evolves w (step w i) ∨ Registers w i (step w i) ∨ Enqueues w i (step w i) := by
  cases i with
  | submit_survey pid prolific_id responses now =>
    rcases submit_survey_cases pid prolific_id responses now w with h | h
    · exact Or.inl h
    · exact Or.inr (Or.inl h)
  | connect socket =>
    left
    unfold step
    dsimp only
    split_ifs
    · exact evolves_refl w
    · exact evolves_of_frame rfl rfl (sessionsKept_refl _)
  | join_queue socket pid sid enqueued now =>
    unfold step onSocket
    dsimp only
    split_ifs
    · rcases join_queue_cases socket pid sid enqueued now w with h | h
      · exact Or.inl h
      · exact Or.inr (Or.inr h)
    · exact Or.inl (evolves_refl w)
  | join_session socket sid pid => exact Or.inl (onSocket_evolves (join_session_evolves _ _ _ _))
  | send_message socket sid message now =>
    exact Or.inl (onSocket_evolves (send_message_evolves _ _ _ _ _))
  | typing_start socket sid =>
    exact Or.inl (onSocket_evolves (evolves_of_frame rfl rfl (sessionsKept_refl _)))
  | typing_stop socket sid =>
    exact Or.inl (onSocket_evolves (evolves_of_frame rfl rfl (sessionsKept_refl _)))
  | leave_session socket sid =>
    exact Or.inl (onSocket_evolves (evolves_of_frame rfl rfl (sessionsKept_refl _)))
  | leave_chat_early socket sid now =>
    exact Or.inl (onSocket_evolves (leave_chat_early_evolves _ _ _ _))
  | disconnect socket now => exact Or.inl (disconnect_evolves _ _ _)
  | timeout timer now =>
    left
    unfold step
    dsimp only
    split_ifs
    · exact evolves_trans_frame
        (evolves_of_frame rfl rfl (sessionsKept_refl _) :
          Evolves w { w with timers := w.timers.erase timer }) rfl
        (runTimer_evolves _ _ _)
    · exact evolves_refl w

/-! ## The invariants hold along every admissible run -/

theorem run_cons (w : World) (i : Input) (rest : List Input) :
    run w (i :: rest) = run (step w i) rest := rfl

theorem classificationOf_congr {w w' : World}
    (h : w'.activeParticipants = w.activeParticipants) (x : ParticipantId) :
    classificationOf w' x = classificationOf w x := by
  simp [classificationOf, h]

theorem classificationOf_mapSet {w w' : World} {pid : ParticipantId} {p : Participant}
    (h : w'.activeParticipants = mapSet pid p w.activeParticipants)
    (hfresh : mapGet pid w.activeParticipants = none) {x : ParticipantId} {c : Classification}
    (hx : classificationOf w x = some c) : classificationOf w' x = some c := by
  have hne : x ≠ pid := by
    intro hxp
    subst hxp
    simp [classificationOf, hfresh] at hx
  simpa [classificationOf, h, mapGet_mapSet_ne p _ hne] using hx

theorem opposed_step (w : World) (i : Input) (ha : admissible w i = true)
    (h : QueuesClassified w ∧ SessionsOpposed w) :
    QueuesClassified (step w i) ∧ SessionsOpposed (step w i) := by
  obtain ⟨⟨hqp, hqa⟩, hs⟩ := h
  rcases step_cases w i with he | hr | hq
  · obtain ⟨hp, h1, h2, h3⟩ := he
    refine ⟨⟨fun e he => ?_, fun e he => ?_⟩, fun p hp' => ?_⟩
    · rw [classificationOf_congr hp]
      exact hqp e (h1.subset he)
    · rw [classificationOf_congr hp]
      exact hqa e (h2.subset he)
    · obtain ⟨s, hmem, hk⟩ := h3 p hp'
      obtain ⟨a, b, hab, hca, hcb⟩ := hs _ hmem
      refine ⟨a, b, ?_, ?_, ?_⟩
      · rw [hk.1]
        exact hab
      · rw [classificationOf_congr hp]
        exact hca
      · rw [classificationOf_congr hp]
        exact hcb
  · obtain ⟨pid, prolific_id, responses, now, p, hi, hp, hq, hS⟩ := hr
    subst hi
    have hfresh : mapGet pid w.activeParticipants = none := by
      simpa [admissible] using ha
    refine ⟨⟨fun e he => ?_, fun e he => ?_⟩, fun p' hp' => ?_⟩
    · rw [hq] at he
      exact classificationOf_mapSet hp hfresh (hqp e he)
    · rw [hq] at he
      exact classificationOf_mapSet hp hfresh (hqa e he)
    · rw [hS] at hp'
      obtain ⟨a, b, hab, hca, hcb⟩ := hs _ hp'
      exact ⟨a, b, hab, classificationOf_mapSet hp hfresh hca,
        classificationOf_mapSet hp hfresh hcb⟩
  · obtain ⟨socket, pid, sid, enqueued, now, q, hi, hp, hpush, hm⟩ := hq
    have hqp' : ∀ e ∈ q.pro_climate,
        classificationOf w e.participant_id = some Classification.pro_climate := by
      intro e he
      rcases hpush with ⟨hc, rfl⟩ | ⟨_, rfl⟩
      · rcases List.mem_append.mp he with h | h
        · exact hqp e h
        · rw [List.mem_singleton.mp h]
          exact hc
      · exact hqp e he
    have hqa' : ∀ e ∈ q.anti_climate,
        classificationOf w e.participant_id = some Classification.anti_climate := by
      intro e he
      rcases hpush with ⟨_, rfl⟩ | ⟨hc, rfl⟩
      · exact hqa e he
      · rcases List.mem_append.mp he with h | h
        · exact hqa e h
        · rw [List.mem_singleton.mp h]
          exact hc
    rcases hm with ⟨_, hq', hS'⟩ | ⟨e1, r1, e2, r2, s, h1, h2, hq', hS', hpart, _⟩
    · refine ⟨⟨fun e he => ?_, fun e he => ?_⟩, fun p' hp' => ?_⟩
      · rw [classificationOf_congr hp]
        exact hqp' e (hq' ▸ he)
      · rw [classificationOf_congr hp]
        exact hqa' e (hq' ▸ he)
      · rw [hS'] at hp'
        obtain ⟨a, b, hab, hca, hcb⟩ := hs _ hp'
        exact ⟨a, b, hab, by rw [classificationOf_congr hp]; exact hca,
          by rw [classificationOf_congr hp]; exact hcb⟩
    · refine ⟨⟨fun e he => ?_, fun e he => ?_⟩, fun p' hp' => ?_⟩
      · rw [classificationOf_congr hp]
        rw [hq'] at he
        exact hqp' e (h1 ▸ List.mem_cons_of_mem _ he)
      · rw [classificationOf_congr hp]
        rw [hq'] at he
        exact hqa' e (h2 ▸ List.mem_cons_of_mem _ he)
      · rw [hS'] at hp'
        rcases mem_mapSet hp' with hnew | hold
        · subst hnew
          refine ⟨e1.participant_id, e2.participant_id, hpart, ?_, ?_⟩
          · rw [classificationOf_congr hp]
            exact hqp' e1 (h1 ▸ List.mem_cons_self _ _)
          · rw [classificationOf_congr hp]
            exact hqa' e2 (h2 ▸ List.mem_cons_self _ _)
        · obtain ⟨a, b, hab, hca, hcb⟩ := hs _ hold
          exact ⟨a, b, hab, by rw [classificationOf_congr hp]; exact hca,
            by rw [classificationOf_congr hp]; exact hcb⟩

theorem opposed_run (tr : List Input) :
    ∀ w : World, valid w tr = true → QueuesClassified w ∧ SessionsOpposed w →
      QueuesClassified (run w tr) ∧ SessionsOpposed (run w tr) := by
  induction tr with
  | nil => exact fun w _ h => h
  | cons i rest ih =>
    intro w hv h
    simp only [valid, Bool.and_eq_true] at hv
    rw [run_cons]
    exact ih _ hv.2 (opposed_step w i hv.1 h)

theorem opposed_init : QueuesClassified World.init ∧ SessionsOpposed World.init := by
  refine ⟨⟨?_, ?_⟩, ?_⟩ <;> intro e he <;> simp [World.init] at he

theorem messagesInTime_step (w : World) (i : Input) (h : MessagesInTime w) :
    MessagesInTime (step w i) := by
  rcases step_cases w i with he | hr | hq
  · intro p hp m hm
    obtain ⟨s, hmem, hpart, hstart, hconv⟩ := he.2.2.2 p hp
    rw [hstart]
    rcases hconv with hc | ⟨m', hc, hlt⟩
    · rw [hc] at hm
      exact h _ hmem m hm
    · rw [hc] at hm
      rcases List.mem_append.mp hm with hm | hm
      · exact h _ hmem m hm
      · rw [List.mem_singleton.mp hm]
        exact hlt
  · obtain ⟨_, _, _, _, _, _, _, _, hS⟩ := hr
    intro p hp
    exact h p (hS ▸ hp)
  · obtain ⟨_, _, _, _, _, q, _, _, _, hm⟩ := hq
    rcases hm with ⟨_, _, hS'⟩ | ⟨e1, r1, e2, r2, s, _, _, _, hS', _, hconv, _⟩
    · intro p hp
      exact h p (hS' ▸ hp)
    · intro p hp m hm
      rw [hS'] at hp
      rcases mem_mapSet hp with hnew | hold
      · subst hnew
        simp [hconv] at hm
      · exact h p hold m hm

theorem messagesInTime_run (tr : List Input) :
    ∀ w : World, MessagesInTime w → MessagesInTime (run w tr) := by
  induction tr with
  | nil => exact fun w h => h
  | cons i rest ih =>
    intro w h
    rw [run_cons]
    exact ih _ (messagesInTime_step w i h)

theorem oneQueueEmpty_of_cases {w w' : World} {i : Input} (h : OneQueueEmpty w)
    (hc : Evolves w w' ∨ Registers w i w' ∨ Enqueues w i w') : OneQueueEmpty w' := by
  rcases hc with he | hr | hq
  · rcases h with h | h
    · exact Or.inl (List.sublist_nil.mp (h ▸ he.2.1))
    · exact Or.inr (List.sublist_nil.mp (h ▸ he.2.2.1))
  · obtain ⟨_, _, _, _, _, _, _, hq, _⟩ := hr
    unfold OneQueueEmpty
    rw [hq]
    exact h
  · obtain ⟨socket, pid, sid, enqueued, now, q, _, _, hpush, hm⟩ := hq
    unfold OneQueueEmpty
    rcases hm with ⟨hempty, hq', _⟩ | ⟨e1, r1, e2, r2, s, h1, h2, hq', _⟩
    · rw [hq']
      exact hempty
    · rw [hq']
      rcases hpush with ⟨_, rfl⟩ | ⟨_, rfl⟩
      · rcases h with h | h
        · left
          simp only [h, List.nil_append, List.cons.injEq] at h1
          exact h1.2.symm
        · simp [h] at h2
      · rcases h with h | h
        · simp [h] at h1
        · right
          simp only [h, List.nil_append, List.cons.injEq] at h2
          exact h2.2.symm

theorem oneQueueEmpty_step (w : World) (i : Input) (h : OneQueueEmpty w) :
    OneQueueEmpty (step w i) :=
  oneQueueEmpty_of_cases h (step_cases w i)

theorem oneQueueEmpty_run (tr : List Input) :
    ∀ w : World, OneQueueEmpty w → OneQueueEmpty (run w tr) := by
  induction tr with
  | nil => exact fun w h => h
  | cons i rest ih =>
    intro w h
    rw [run_cons]
    exact ih _ (oneQueueEmpty_step w i h)

theorem nodup_heads {a b : ParticipantId} {R1 R2 : List ParticipantId}
    (h : (a :: (R1 ++ b :: R2)).Nodup) :
    a ∉ R1 ++ R2 ∧ b ∉ R1 ++ R2 ∧ (R1 ++ R2).Nodup := by
  have hp : (a :: (R1 ++ b :: R2)).Perm (a :: b :: (R1 ++ R2)) := List.perm_middle.cons a
  rw [hp.nodup_iff, List.nodup_cons, List.nodup_cons] at h
  exact ⟨fun hx => h.1 (List.mem_cons_of_mem _ hx), h.2.1, h.2.2⟩

theorem queuePids_sublist {q q' : WaitingQueues}
    (h1 : q'.pro_climate.Sublist q.pro_climate) (h2 : q'.anti_climate.Sublist q.anti_climate) :
    (queuePids q').Sublist (queuePids q) :=
  (List.Sublist.append h1 h2).map _

theorem queuePids_push {q0 q : WaitingQueues} {e : QueueEntry}
    (h : q = { q0 with pro_climate := q0.pro_climate ++ [e] } ∨
         q = { q0 with anti_climate := q0.anti_climate ++ [e] }) :
    (queuePids q).Perm (e.participant_id :: queuePids q0) := by
  rcases h with rfl | rfl
  · simp only [queuePids, List.map_append, List.map_cons, List.map_nil, List.append_assoc,
      List.singleton_append]
    exact List.perm_middle
  · simp only [queuePids, List.map_append, List.map_cons, List.map_nil]
    rw [← List.append_assoc]
    exact List.perm_append_singleton _ _

theorem queuedOnce_mono {seen seen' : List ParticipantId} {w : World}
    (hsub : ∀ x ∈ seen, x ∈ seen') (h : QueuedOnce seen w) : QueuedOnce seen' w :=
  ⟨h.1, fun x hx => hsub x (h.2.1 x hx),
    fun p hp x hx => ⟨hsub x (h.2.2 p hp x hx).1, (h.2.2 p hp x hx).2⟩⟩

theorem queuedOnce_step (w : World) (i : Input) (seen : List ParticipantId)
    (hnd : (seen ++ joinQueuePids [i]).Nodup) (h : QueuedOnce seen w) :
    QueuedOnce (seen ++ joinQueuePids [i]) (step w i) := by
  have hmono : ∀ x ∈ seen, x ∈ seen ++ joinQueuePids [i] :=
    fun x hx => List.mem_append_left _ hx
  obtain ⟨hn, hseen, hsess⟩ := h
  rcases step_cases w i with he | hr | hq
  · refine queuedOnce_mono hmono ⟨?_, ?_, ?_⟩
    · exact hn.sublist (queuePids_sublist he.2.1 he.2.2.1)
    · exact fun x hx => hseen x ((queuePids_sublist he.2.1 he.2.2.1).subset hx)
    · intro p hp x hx
      obtain ⟨s, hmem, hpart, _⟩ := he.2.2.2 p hp
      rw [hpart] at hx
      exact ⟨(hsess _ hmem x hx).1,
        fun hx' => (hsess _ hmem x hx).2 ((queuePids_sublist he.2.1 he.2.2.1).subset hx')⟩
  · obtain ⟨_, _, _, _, _, _, _, hq, hS⟩ := hr
    refine queuedOnce_mono hmono ⟨?_, ?_, ?_⟩
    · unfold queuedPids
      rw [hq]
      exact hn
    · unfold queuedPids
      rw [hq]
      exact hseen
    · unfold queuedPids
      rw [hq, hS]
      exact hsess
  · obtain ⟨socket, pid, sid, enqueued, now, q, hi, _, hpush, hm⟩ := hq
    subst hi
    have hpid : pid ∉ seen := by
      intro hx
      have := List.disjoint_of_nodup_append hnd hx
      exact this (by simp [joinQueuePids])
    have hperm : (queuePids q).Perm (pid :: queuePids w.waitingQueues) :=
      queuePids_push (e := { participant_id := pid, socket_id := socket, timestamp := enqueued })
        (hpush.imp (fun h => h.2) (fun h => h.2))
    have hnq : (queuePids q).Nodup := by
      rw [hperm.nodup_iff, List.nodup_cons]
      exact ⟨fun hx => hpid (hseen pid hx), hn⟩
    have hseenq : ∀ x ∈ queuePids q, x ∈ seen ++ joinQueuePids [Input.join_queue socket pid sid enqueued now] := by
      intro x hx
      rcases List.mem_cons.mp (hperm.subset hx) with hx | hx
      · subst hx
        simp [joinQueuePids]
      · exact hmono x (hseen x hx)
    have hsessq : ∀ p ∈ w.activeSessions, ∀ x ∈ p.2.participants, x ∉ queuePids q := by
      intro p hp x hx hxq
      rcases List.mem_cons.mp (hperm.subset hxq) with hxp | hxp
      · subst hxp
        exact hpid (hsess p hp x hx).1
      · exact (hsess p hp x hx).2 hxp
    rcases hm with ⟨_, hq', hS'⟩ | ⟨e1, r1, e2, r2, s, h1, h2, hq', hS', hpart, _⟩
    · refine ⟨?_, ?_, ?_⟩
      · unfold queuedPids
        rw [hq']
        exact hnq
      · unfold queuedPids
        rw [hq']
        exact hseenq
      · unfold queuedPids
        rw [hq', hS']
        exact fun p hp x hx => ⟨hmono x (hsess p hp x hx).1, hsessq p hp x hx⟩
    · have hqe : queuePids q = e1.participant_id ::
          (r1.map (fun e => e.participant_id) ++
            e2.participant_id :: r2.map (fun e => e.participant_id)) := by
        simp [queuePids, h1, h2]
      have hq'e : queuedPids (step w (Input.join_queue socket pid sid enqueued now)) =
          r1.map (fun e => e.participant_id) ++ r2.map (fun e => e.participant_id) := by
        simp [queuedPids, queuePids, hq']
      have hsub : ∀ x ∈ r1.map (fun e => e.participant_id) ++ r2.map (fun e => e.participant_id),
          x ∈ queuePids q := by
        intro x hx
        rw [hqe]
        rcases List.mem_append.mp hx with hx | hx
        · exact List.mem_cons_of_mem _ (List.mem_append_left _ hx)
        · exact List.mem_cons_of_mem _ (List.mem_append_right _ (List.mem_cons_of_mem _ hx))
      rw [hqe] at hnq
      obtain ⟨hn1, hn2, hn3⟩ := nodup_heads hnq
      refine ⟨?_, ?_, ?_⟩
      · rw [hq'e]
        exact hn3
      · rw [hq'e]
        exact fun x hx => hseenq x (hsub x hx)
      · rw [hq'e, hS']
        intro p hp x hx
        rcases mem_mapSet hp with hnew | hold
        · subst hnew
          rw [hpart] at hx
          simp only [List.mem_cons, List.mem_singleton, List.not_mem_nil, or_false] at hx
          rcases hx with hx | hx
          · subst hx
            exact ⟨hseenq _ (hqe ▸ List.mem_cons_self _ _), hn1⟩
          · subst hx
            refine ⟨hseenq _ ?_, hn2⟩
            rw [hqe]
            exact List.mem_cons_of_mem _ (List.mem_append_right _ (List.mem_cons_self _ _))
        · exact ⟨hmono x (hsess p hold x hx).1, fun hx' => hsessq p hold x hx (hsub x hx')⟩

theorem joinQueuePids_cons (i : Input) (rest : List Input) :
    joinQueuePids (i :: rest) = joinQueuePids [i] ++ joinQueuePids rest := by
  cases i <;> simp [joinQueuePids]

theorem queuedOnce_run (tr : List Input) :
    ∀ (w : World) (seen : List ParticipantId), (seen ++ joinQueuePids tr).Nodup →
      QueuedOnce seen w → QueuedOnce (seen ++ joinQueuePids tr) (run w tr) := by
  induction tr with
  | nil =>
    intro w seen _ h
    simpa [joinQueuePids, run] using h
  | cons i rest ih =>
    intro w seen hnd h
    rw [joinQueuePids_cons, ← List.append_assoc] at hnd ⊢
    rw [run_cons]
    exact ih _ _ hnd (queuedOnce_step w i seen (hnd.sublist (List.sublist_append_left _ _)) h)

/-! ## What single handlers do -/

theorem send_message_rejected (w : World) (socket : SocketId) (sid : SessionId)
    (message : JSString) (now : Time) (s : Session)
    (hs : mapGet sid w.activeSessions = some s) (hel : 300 ≤ diffSeconds now s.timestamp_start) :
    send_message socket sid message now w =
      emit (Target.socket socket) (ServerEvent.conversation_ended Reason.time_limit) w := by
  unfold send_message
  rw [hs]
  dsimp only
  rw [if_pos hel]

theorem send_message_accepted (w : World) (socket : SocketId) (sid : SessionId)
    (message : JSString) (now : Time) (s : Session)
    (hs : mapGet sid w.activeSessions = some s) (hel : diffSeconds now s.timestamp_start < 300) :
    (send_message socket sid message now w).activeSessions =
      mapSet sid
        { s with conversation := s.conversation ++
            [{ timestamp := now
               sender := (getSocket socket w).bind (fun sk => sk.participant_id)
               message := message.take 500
               character_count := message.length }] } w.activeSessions := by
  unfold send_message
  rw [hs]
  dsimp only
  rw [if_neg (not_le.mpr hel)]
  rfl

theorem send_message_accepted_out (w : World) (socket : SocketId) (sid : SessionId)
    (message : JSString) (now : Time) (s : Session)
    (hs : mapGet sid w.activeSessions = some s) (hel : diffSeconds now s.timestamp_start < 300) :
    (send_message socket sid message now w).out =
      w.out ++
        [Output.emit (Target.room sid) (ServerEvent.receive_message
            { timestamp := now
              sender := (getSocket socket w).bind (fun sk => sk.participant_id)
              message := message.take 500
              character_count := message.length }),
         Output.saveConversation
            { session_id := sid
              conversation := s.conversation ++
                [{ timestamp := now
                   sender := (getSocket socket w).bind (fun sk => sk.participant_id)
                   message := message.take 500
                   character_count := message.length }]
              total_messages := s.conversation.length + 1
              last_updated := some now
              messages_per_participant := none
              conversation_duration_seconds := none
              completion_reason := none }] := by
  unfold send_message
  rw [hs]
  dsimp only
  rw [if_neg (not_le.mpr hel)]
  simp [saveConversation, emit]

theorem endSession_out (sid : SessionId) (r : Reason) (now : Time) (w : World)
    (s : Session) (h : mapGet sid w.activeSessions = some s) :
    (endSession sid r now w).out =
      w.out ++
        [Output.saveSession
          { s with
            status := Status.ended
            timestamp_end := some now
            conversation_duration_seconds := some (diffSeconds now s.timestamp_start)
            completion_status :=
              some (if r = Reason.time_limit then CompletionStatus.completed
                    else CompletionStatus.incomplete)
            message_count := some s.conversation.length }] ++
        (if s.conversation.length > 0 then
          [Output.saveConversation
            { session_id := sid
              conversation := s.conversation
              total_messages := s.conversation.length
              last_updated := none
              messages_per_participant :=
                some (s.participants.foldl
                  (fun acc pid => mapSet pid
                    (s.conversation.filter (fun msg => decide (msg.sender = some pid))).length acc)
                  [])
              conversation_duration_seconds := some (diffSeconds now s.timestamp_start)
              completion_reason := some r }]
         else []) ++
        [Output.emit (Target.room sid) (ServerEvent.conversation_ended r)] := by
  unfold endSession
  rw [h]
  dsimp only
  split_ifs <;> simp [saveSession, saveConversation, emit, setTimeout]

theorem endSession_out_getLast (sid : SessionId) (r : Reason) (now : Time) (w : World)
    (s : Session) (h : mapGet sid w.activeSessions = some s) :
    (endSession sid r now w).out.getLast? =
      some (Output.emit (Target.room sid) (ServerEvent.conversation_ended r)) := by
  unfold endSession
  rw [h]
  simp

theorem leave_chat_early_active (w : World) (socket : SocketId) (sid : SessionId)
    (now : Time) (s : Session) (hs : mapGet sid w.activeSessions = some s)
    (ha : s.status = Status.active) :
    leave_chat_early socket sid now w =
      updateSocket socket (leaveRoom sid)
        (endSession sid Reason.participant_left_early now
          (emit (Target.roomExcept sid socket) ServerEvent.participant_left_early w)) := by
  unfold leave_chat_early
  rw [hs]
  dsimp only
  rw [if_pos ha]

theorem leave_chat_early_not_active (w : World) (socket : SocketId) (sid : SessionId)
    (now : Time) (s : Session) (hs : mapGet sid w.activeSessions = some s)
    (ha : s.status ≠ Status.active) :
    leave_chat_early socket sid now w = updateSocket socket (leaveRoom sid) w := by
  unfold leave_chat_early
  rw [hs]
  dsimp only
  rw [if_neg ha]

theorem tryToMatch_of_heads (w : World) (sid : SessionId) (now : Time)
    (e1 e2 : QueueEntry) (r1 r2 : List QueueEntry)
    (h1 : w.waitingQueues.pro_climate = e1 :: r1) (h2 : w.waitingQueues.anti_climate = e2 :: r2) :
    (tryToMatch sid now w).waitingQueues = { pro_climate := r1, anti_climate := r2 } ∧
    (tryToMatch sid now w).activeSessions =
      mapSet sid (newSessionData sid now e1 e2) w.activeSessions := by
  unfold tryToMatch
  rw [h1, h2]
  dsimp only
  split <;> exact ⟨rfl, rfl⟩

theorem tryToMatch_of_empty (w : World) (sid : SessionId) (now : Time)
    (h : w.waitingQueues.pro_climate = [] ∨ w.waitingQueues.anti_climate = []) :
    tryToMatch sid now w = w := by
  unfold tryToMatch
  split
  · next e1 r1 e2 r2 h1 h2 =>
    rcases h with h | h
    · simp [h] at h1
    · simp [h] at h2
  · rfl

theorem removeFromQueues_frame (c : Option Classification) (socket : SocketId) (w : World) :
    (removeFromQueues c socket w).activeSessions = w.activeSessions ∧
    (removeFromQueues c socket w).timers = w.timers ∧
    (removeFromQueues c socket w).out = w.out := by
  unfold removeFromQueues
  split <;> exact ⟨rfl, rfl, rfl⟩

theorem startGracePeriod_of_live (w : World) (sid : SessionId) (pid : ParticipantId)
    (socket : SocketId) (now : Time) (s : Session) (hs : mapGet sid w.activeSessions = some s)
    (hne : s.status ≠ Status.ended) :
    startGracePeriod sid pid socket now w =
      setTimeout (TimerAction.reconnectCheck sid pid socket) 10000 now
        { w with
          activeSessions :=
            mapSet sid
              { s with connected_participants :=
                  s.connected_participants.filter (fun x => decide (x ≠ pid)) }
              w.activeSessions } := by
  unfold startGracePeriod
  rw [hs]
  dsimp only
  rw [if_pos hne]

/-- A disconnect of a socket that carries a live, not ended session: the
participant leaves the connected set and the 10-second check is scheduled;
nothing is sent. -/
theorem disconnect_of_live (w : World) (socket : SocketId) (now : Time) (sk : Socket)
    (sid : SessionId) (pid : ParticipantId) (s : Session)
    (hsk : getSocket socket w = some sk) (hsid : sk.session_id = some sid)
    (hpid : sk.participant_id = some pid) (hs : mapGet sid w.activeSessions = some s)
    (hne : s.status ≠ Status.ended) :
    (disconnect socket now w).activeSessions =
      mapSet sid { s with connected_participants :=
        s.connected_participants.filter (fun x => decide (x ≠ pid)) } w.activeSessions ∧
    (disconnect socket now w).timers =
      w.timers ++ [{ due := now + 10000, action := TimerAction.reconnectCheck sid pid socket }] ∧
    (disconnect socket now w).out = w.out := by
  unfold disconnect
  rw [hsk]
  dsimp only
  rw [hsid, hpid]
  dsimp only
  obtain ⟨h1, h2, h3⟩ := removeFromQueues_frame sk.classification socket
    { w with sockets := w.sockets.filter (fun x => decide (x.id ≠ socket)) }
  rw [startGracePeriod_of_live _ sid pid socket now s (by rw [h1]; exact hs) hne]
  refine ⟨?_, ?_, ?_⟩
  · rw [setTimeout_activeSessions]
    dsimp only
    rw [h1]
  · rw [setTimeout_timers]
    dsimp only
    rw [h2]
  · rw [setTimeout_out]
    dsimp only
    rw [h3]

/-- A `join_session` of a participant of a live, not ended session succeeds:
afterwards the participant is in the connected set of the session, which is
still not ended; no timer is added. -/
theorem join_session_of_live (w : World) (socket : SocketId) (sid : SessionId)
    (pid : ParticipantId) (s : Session) (hs : mapGet sid w.activeSessions = some s)
    (hp : pid ∈ s.participants) (hne : s.status ≠ Status.ended) :
    (∃ s2, mapGet sid (join_session socket sid pid w).activeSessions = some s2 ∧
      s2.status ≠ Status.ended ∧ pid ∈ s2.connected_participants) ∧
    (join_session socket sid pid w).timers = w.timers := by
  unfold join_session
  rw [hs]
  dsimp only
  rw [if_neg (not_not.mpr hp), if_neg hne]
  by_cases hc : pid ∈ s.connected_participants
  · rw [if_pos hc]
    split_ifs <;> simp [mapGet_mapSet_self, hne, hc]
  · rw [if_neg hc]
    split_ifs <;> simp [mapGet_mapSet_self, hne]

/-! ## The reconnection check stays silent -/

theorem mapGet_mapDelete_self {ν : Type} (k : Nat) (m : List (Nat × ν)) :
    mapGet k (mapDelete k m) = none := by
  induction m with
  | nil => rfl
  | cons e rest ih =>
    obtain ⟨k0, v0⟩ := e
    by_cases hk : k0 = k
    · simpa [mapDelete, hk] using ih
    · have : mapDelete k ((k0, v0) :: rest) = (k0, v0) :: mapDelete k rest := by
        simp [mapDelete, hk]
      rw [this]
      simp [mapGet, hk, ih]

theorem mapGet_mapDelete_ne {ν : Type} {k k' : Nat} (m : List (Nat × ν)) (h : k' ≠ k) :
    mapGet k' (mapDelete k m) = mapGet k' m := by
  induction m with
  | nil => rfl
  | cons e rest ih =>
    obtain ⟨k0, v0⟩ := e
    by_cases hk : k0 = k
    · subst hk
      have : mapDelete k0 ((k0, v0) :: rest) = mapDelete k0 rest := by
        simp [mapDelete]
      rw [this, ih]
      simp [mapGet, Ne.symm h]
    · have : mapDelete k ((k0, v0) :: rest) = (k0, v0) :: mapDelete k rest := by
        simp [mapDelete, hk]
      rw [this]
      by_cases hk2 : k0 = k'
      · simp [mapGet, hk2]
      · simp [mapGet, hk2, ih]

theorem checkSilent_mapSet {sid : SessionId} {pid : ParticipantId} {k : SessionId}
    {S : List (SessionId × Session)} {s s' : Session} (hinv : CheckSilent sid pid S)
    (hk : mapGet k S = some s)
    (h' : s.status = Status.ended ∨ pid ∈ s.connected_participants →
      s'.status = Status.ended ∨ pid ∈ s'.connected_participants) :
    CheckSilent sid pid (mapSet k s' S) := by
  intro x hx
  by_cases hks : k = sid
  · subst hks
    rw [mapGet_mapSet_self] at hx
    cases hx
    exact h' (hinv s hk)
  · rw [mapGet_mapSet_ne _ _ (Ne.symm hks)] at hx
    exact hinv x hx

theorem checkSilent_endSession (sid : SessionId) (pid : ParticipantId) (k : SessionId)
    (r : Reason) (now : Time) (w : World) (h : CheckSilent sid pid w.activeSessions) :
    CheckSilent sid pid (endSession k r now w).activeSessions := by
  cases hk : mapGet k w.activeSessions with
  | none =>
    have : endSession k r now w = w := by
      unfold endSession
      rw [hk]
    rw [this]
    exact h
  | some s =>
    rw [endSession_activeSessions k r now w s hk]
    exact checkSilent_mapSet h hk (fun _ => Or.inl rfl)

theorem checkSilent_join_session (sid : SessionId) (pid : ParticipantId) (socket : SocketId)
    (k : SessionId) (p : ParticipantId) (w : World) (h : CheckSilent sid pid w.activeSessions) :
    CheckSilent sid pid (join_session socket k p w).activeSessions := by
  unfold join_session
  split
  · exact h
  · next s hs =>
    dsimp only
    by_cases hp : p ∈ s.participants
    · rw [if_neg (not_not.mpr hp)]
      by_cases he : s.status = Status.ended
      · rw [if_pos he]
        exact h
      · rw [if_neg he]
        by_cases hc : p ∈ s.connected_participants
        · rw [if_pos hc]
          split_ifs <;>
            exact checkSilent_mapSet h hs (fun hc' => Or.inr (hc'.resolve_left he))
        · rw [if_neg hc]
          split_ifs <;>
            exact checkSilent_mapSet h hs
              (fun hc' => Or.inr (List.mem_append_left _ (hc'.resolve_left he)))
    · rw [if_pos hp]
      exact h

theorem checkSilent_send_message (sid : SessionId) (pid : ParticipantId) (socket : SocketId)
    (k : SessionId) (message : JSString) (now : Time) (w : World)
    (h : CheckSilent sid pid w.activeSessions) :
    CheckSilent sid pid (send_message socket k message now w).activeSessions := by
  unfold send_message
  split
  · exact h
  · next s hs =>
    dsimp only
    split_ifs
    · exact h
    · exact checkSilent_mapSet h hs (fun hc => hc)

theorem checkSilent_leave_chat_early (sid : SessionId) (pid : ParticipantId) (socket : SocketId)
    (k : SessionId) (now : Time) (w : World) (h : CheckSilent sid pid w.activeSessions) :
    CheckSilent sid pid (leave_chat_early socket k now w).activeSessions := by
  unfold leave_chat_early
  split
  · dsimp only
    split_ifs
    · exact checkSilent_endSession sid pid k _ now _ h
    · exact h
  · exact h

theorem checkSilent_runTimer (sid : SessionId) (pid : ParticipantId) (action : TimerAction)
    (now : Time) (w : World) (h : CheckSilent sid pid w.activeSessions) :
    CheckSilent sid pid (runTimer action now w).activeSessions := by
  cases action with
  | timeLimit k => exact checkSilent_endSession sid pid k _ now w h
  | reconnectCheck k p socket =>
    unfold runTimer
    dsimp only
    split
    · split_ifs <;> exact h
    · exact h
  | finalCheck k p socket =>
    unfold runTimer
    dsimp only
    split
    · split_ifs
      all_goals first
        | exact h
        | exact checkSilent_endSession sid pid k _ now w h
    · exact h
  | removeSession k =>
    intro x hx
    by_cases hk : k = sid
    · subst hk
      simp [runTimer, mapGet_mapDelete_self] at hx
    · have hx' : mapGet sid (mapDelete k w.activeSessions) = some x := hx
      rw [mapGet_mapDelete_ne _ (Ne.symm hk)] at hx'
      exact h x hx'

theorem checkSilent_disconnect (sid : SessionId) (pid : ParticipantId) (socket : SocketId)
    (now : Time) (w : World)
    (hsock : (getSocket socket w).bind (fun sk => sk.participant_id) ≠ some pid)
    (h : CheckSilent sid pid w.activeSessions) :
    CheckSilent sid pid (disconnect socket now w).activeSessions := by
  unfold disconnect
  split
  · exact h
  · next sk hsk =>
    obtain ⟨h1, _, _⟩ := removeFromQueues_frame sk.classification socket
      { w with sockets := w.sockets.filter (fun x => decide (x.id ≠ socket)) }
    have h' : CheckSilent sid pid (removeFromQueues sk.classification socket
        { w with sockets := w.sockets.filter (fun x => decide (x.id ≠ socket)) }).activeSessions := by
      rw [h1]
      exact h
    dsimp only
    split
    · next k p hk hp =>
      have hne : pid ≠ p := by
        intro hpp
        apply hsock
        rw [hsk, hpp]
        exact hp
      unfold startGracePeriod
      split
      · next s hs =>
        split_ifs
        · refine checkSilent_mapSet h' hs (fun hc => hc.imp_right (fun hm => ?_))
          exact List.mem_filter.mpr ⟨hm, by simpa using hne⟩
        · exact h'
      · exact h'
    · exact h'

theorem checkSilent_tryToMatch (sid : SessionId) (pid : ParticipantId) (k : SessionId)
    (now : Time) (w : World) (hk : k ≠ sid) (h : CheckSilent sid pid w.activeSessions) :
    CheckSilent sid pid (tryToMatch k now w).activeSessions := by
  rcases tryToMatch_matched k now w with ⟨_, _, hS⟩ | ⟨_, _, _, _, s, _, _, _, hS, _⟩
  · rw [hS]
    exact h
  · rw [hS]
    intro x hx
    rw [mapGet_mapSet_ne _ _ (Ne.symm hk)] at hx
    exact h x hx

theorem checkSilent_join_queue (sid : SessionId) (pid : ParticipantId) (socket : SocketId)
    (p : ParticipantId) (k : SessionId) (enqueued now : Time) (w : World) (hk : k ≠ sid)
    (h : CheckSilent sid pid w.activeSessions) :
    CheckSilent sid pid (join_queue socket p k enqueued now w).activeSessions := by
  unfold join_queue
  split
  · exact h
  · dsimp only
    split
    · exact checkSilent_tryToMatch sid pid k now _ hk h
    · exact checkSilent_tryToMatch sid pid k now _ hk h
    · exact h

theorem checkSilent_onSocket {sid : SessionId} {pid : ParticipantId} {socket : SocketId}
    {handler : World → World} {w : World} (h : CheckSilent sid pid w.activeSessions)
    (hh : CheckSilent sid pid (handler w).activeSessions) :
    CheckSilent sid pid (onSocket socket handler w).activeSessions := by
  unfold onSocket
  split_ifs
  · exact hh
  · exact h

theorem checkSilent_run (sid : SessionId) (pid : ParticipantId) (mid : List Input) :
    ∀ w : World, undisturbed sid pid w mid = true → CheckSilent sid pid w.activeSessions →
      CheckSilent sid pid (run w mid).activeSessions := by
  induction mid with
  | nil => exact fun w _ h => h
  | cons i rest ih =>
    intro w hu h
    rw [run_cons]
    cases i with
    | submit_survey participant_id prolific_id responses now =>
      refine ih _ hu ?_
      rcases submit_survey_cases participant_id prolific_id responses now w with he | hr
      · have : (step w (Input.submit_survey participant_id prolific_id responses now)).activeSessions
            = w.activeSessions := by
          unfold step submit_survey
          dsimp only
          split
          · rfl
          · split_ifs <;> rfl
        rw [this]
        exact h
      · obtain ⟨_, _, _, _, _, _, _, _, hS⟩ := hr
        have hS' : (step w (Input.submit_survey participant_id prolific_id responses now)).activeSessions
            = w.activeSessions := hS
        rw [hS']
        exact h
    | connect socket =>
      refine ih _ hu ?_
      unfold step
      dsimp only
      split_ifs <;> exact h
    | join_queue socket p k enqueued now =>
      simp only [undisturbed, Bool.and_eq_true, decide_eq_true_eq] at hu
      exact ih _ hu.2
        (checkSilent_onSocket h (checkSilent_join_queue sid pid socket p k enqueued now w hu.1 h))
    | join_session socket k p =>
      exact ih _ hu (checkSilent_onSocket h (checkSilent_join_session sid pid socket k p w h))
    | send_message socket k message now =>
      exact ih _ hu (checkSilent_onSocket h (checkSilent_send_message sid pid socket k message now w h))
    | typing_start socket k => exact ih _ hu (checkSilent_onSocket h h)
    | typing_stop socket k => exact ih _ hu (checkSilent_onSocket h h)
    | leave_session socket k => exact ih _ hu (checkSilent_onSocket h h)
    | leave_chat_early socket k now =>
      exact ih _ hu (checkSilent_onSocket h (checkSilent_leave_chat_early sid pid socket k now w h))
    | disconnect socket now =>
      simp only [undisturbed, Bool.and_eq_true, decide_eq_true_eq] at hu
      exact ih _ hu.2 (checkSilent_disconnect sid pid socket now w hu.1 h)
    | timeout timer now =>
      refine ih _ hu ?_
      unfold step
      dsimp only
      split_ifs
      · exact checkSilent_runTimer sid pid timer.action now _ h
      · exact h

/-- The 10-second check, run in a state where it has nothing to do, changes
nothing: it sends nothing and schedules nothing. -/
theorem reconnectCheck_of_silent (w : World) (sid : SessionId) (pid : ParticipantId)
    (socket : SocketId) (now : Time) (h : CheckSilent sid pid w.activeSessions) :
    runTimer (TimerAction.reconnectCheck sid pid socket) now w = w := by
  unfold runTimer
  dsimp only
  split
  · next s hs =>
    rcases h s hs with he | hc
    · rw [if_neg (not_not.mpr he)]
    · split_ifs <;> rfl
  · rfl

/-- When one of the queues holds at most one entry, at least one queue is
empty after `tryToMatch`. -/
theorem tryToMatch_oneQueueEmpty_of_short (w : World) (sid : SessionId) (now : Time)
    (h : w.waitingQueues.pro_climate.length ≤ 1 ∨ w.waitingQueues.anti_climate.length ≤ 1) :
    OneQueueEmpty (tryToMatch sid now w) := by
  unfold OneQueueEmpty
  cases hp : w.waitingQueues.pro_climate with
  | nil =>
    rw [tryToMatch_of_empty w sid now (Or.inl hp)]
    exact Or.inl hp
  | cons e1 r1 =>
    cases ha : w.waitingQueues.anti_climate with
    | nil =>
      rw [tryToMatch_of_empty w sid now (Or.inr ha)]
      exact Or.inr ha
    | cons e2 r2 =>
      rw [(tryToMatch_of_heads w sid now e1 e2 r1 r2 hp ha).1]
      rw [hp, ha] at h
      simp only [List.length_cons] at h
      rcases h with h | h
      · have h0 : r1.length = 0 := by omega
        exact Or.inl (List.length_eq_zero.mp h0)
      · have h0 : r2.length = 0 := by omega
        exact Or.inr (List.length_eq_zero.mp h0)

/-- A single call of `tryToMatch` pairs once: on `crowdedWorld`, a state with
two entries in each queue that no run from the initial state reaches, it leaves
one entry in each queue. -/
theorem tryToMatch_pairs_only_once :
    (tryToMatch 900 2000 crowdedWorld).waitingQueues =
      { pro_climate := [{ participant_id := 103, socket_id := 3, timestamp := 1200 }]
        anti_climate := [{ participant_id := 104, socket_id := 4, timestamp := 1300 }] } ∧
    ¬ OneQueueEmpty (tryToMatch 900 2000 crowdedWorld) := by
  refine ⟨by decide, ?_⟩
  unfold OneQueueEmpty
  decide

/-! ## Matched participants and the queues -/

theorem savedPids_append (a b : List Output) :
    savedPids (a ++ b) = savedPids a ++ savedPids b := by
  induction a with
  | nil => rfl
  | cons o rest ih => cases o <;> simp [savedPids, ih]

theorem outStep_of_eq {w w' : World} (h : savedPids w'.out = savedPids w.out) : OutStep w w' :=
  ⟨fun _ hy => h ▸ hy, fun _ hy => Or.inl (h ▸ hy)⟩

theorem outStep_refl (w : World) : OutStep w w := outStep_of_eq rfl

theorem outStep_post {w v u : World} (h : OutStep w v)
    (ho : savedPids u.out = savedPids v.out) (hs : u.activeSessions = v.activeSessions) :
    OutStep w u :=
  ⟨fun y hy => ho ▸ h.1 y hy, fun y hy => hs ▸ h.2 y (ho ▸ hy)⟩

theorem outStep_pre {w v u : World} (ho : savedPids v.out = savedPids w.out)
    (h : OutStep v u) : OutStep w u :=
  ⟨fun y hy => h.1 y (ho ▸ hy), fun y hy => ho ▸ h.2 y hy⟩

theorem endSession_savedPids (sid : SessionId) (r : Reason) (now : Time) (w : World)
    (s : Session) (h : mapGet sid w.activeSessions = some s) :
    savedPids (endSession sid r now w).out = savedPids w.out ++ s.participants := by
  rw [endSession_out sid r now w s h]
  split_ifs <;> simp [savedPids_append, savedPids]

theorem outStep_endSession (sid : SessionId) (r : Reason) (now : Time) (w : World) :
    OutStep w (endSession sid r now w) := by
  cases h : mapGet sid w.activeSessions with
  | none =>
    have : endSession sid r now w = w := by
      unfold endSession
      rw [h]
    rw [this]
    exact outStep_refl w
  | some s =>
    refine ⟨fun y hy => ?_, fun y hy => ?_⟩
    · rw [endSession_savedPids sid r now w s h]
      exact List.mem_append_left _ hy
    · rw [endSession_savedPids sid r now w s h] at hy
      rcases List.mem_append.mp hy with hy | hy
      · exact Or.inl hy
      · right
        rw [endSession_activeSessions sid r now w s h]
        exact ⟨(sid, _), mem_of_mapGet (mapGet_mapSet_self _ _ _), hy⟩

theorem tryToMatch_savedPids_of_heads (w : World) (sid : SessionId) (now : Time)
    (e1 e2 : QueueEntry) (r1 r2 : List QueueEntry)
    (h1 : w.waitingQueues.pro_climate = e1 :: r1) (h2 : w.waitingQueues.anti_climate = e2 :: r2) :
    savedPids (tryToMatch sid now w).out =
      savedPids w.out ++ [e1.participant_id, e2.participant_id] := by
  unfold tryToMatch
  rw [h1, h2]
  dsimp only
  split <;> simp [savedPids_append, savedPids, newSessionData]

theorem outStep_tryToMatch (sid : SessionId) (now : Time) (w : World) :
    OutStep w (tryToMatch sid now w) := by
  cases hp : w.waitingQueues.pro_climate with
  | nil =>
    rw [tryToMatch_of_empty w sid now (Or.inl hp)]
    exact outStep_refl w
  | cons e1 r1 =>
    cases ha : w.waitingQueues.anti_climate with
    | nil =>
      rw [tryToMatch_of_empty w sid now (Or.inr ha)]
      exact outStep_refl w
    | cons e2 r2 =>
      refine ⟨fun y hy => ?_, fun y hy => ?_⟩
      · rw [tryToMatch_savedPids_of_heads w sid now e1 e2 r1 r2 hp ha]
        exact List.mem_append_left _ hy
      · rw [tryToMatch_savedPids_of_heads w sid now e1 e2 r1 r2 hp ha] at hy
        rcases List.mem_append.mp hy with hy | hy
        · exact Or.inl hy
        · right
          rw [(tryToMatch_of_heads w sid now e1 e2 r1 r2 hp ha).2]
          exact ⟨(sid, newSessionData sid now e1 e2),
            mem_of_mapGet (mapGet_mapSet_self _ _ _), hy⟩

theorem liveSaved_tryToMatch (sid : SessionId) (now : Time) (w : World) (h : LiveSaved w) :
    LiveSaved (tryToMatch sid now w) := by
  cases hp : w.waitingQueues.pro_climate with
  | nil =>
    rw [tryToMatch_of_empty w sid now (Or.inl hp)]
    exact h
  | cons e1 r1 =>
    cases ha : w.waitingQueues.anti_climate with
    | nil =>
      rw [tryToMatch_of_empty w sid now (Or.inr ha)]
      exact h
    | cons e2 r2 =>
      intro p hp' y hy
      rw [tryToMatch_savedPids_of_heads w sid now e1 e2 r1 r2 hp ha]
      rw [(tryToMatch_of_heads w sid now e1 e2 r1 r2 hp ha).2] at hp'
      rcases mem_mapSet hp' with hnew | hold
      · subst hnew
        exact List.mem_append_right _ hy
      · exact List.mem_append_left _ (h p hold y hy)

theorem outStep_emit_after {w w1 : World} (h : OutStep w w1) (t : Target) (e : ServerEvent) :
    OutStep w (emit t e w1) :=
  outStep_post h (by simp [savedPids_append, savedPids]) rfl

theorem outStep_join_queue (socket : SocketId) (pid : ParticipantId) (sid : SessionId)
    (enqueued now : Time) (w : World) :
    OutStep w (join_queue socket pid sid enqueued now w) := by
  unfold join_queue
  split
  · exact outStep_emit_after (outStep_refl w) _ _
  · dsimp only
    split
    · exact outStep_emit_after (outStep_pre (by rfl) (outStep_tryToMatch sid now _)) _ _
    · exact outStep_emit_after (outStep_pre (by rfl) (outStep_tryToMatch sid now _)) _ _
    · exact outStep_refl w

theorem join_session_savedPids (socket : SocketId) (sid : SessionId) (pid : ParticipantId)
    (w : World) : savedPids (join_session socket sid pid w).out = savedPids w.out := by
  unfold join_session
  split
  · simp [savedPids_append, savedPids]
  · dsimp only
    split_ifs <;> simp [savedPids_append, savedPids, updateSocket]

theorem send_message_savedPids (socket : SocketId) (sid : SessionId) (message : JSString)
    (now : Time) (w : World) :
    savedPids (send_message socket sid message now w).out = savedPids w.out := by
  unfold send_message
  split
  · simp [savedPids_append, savedPids]
  · dsimp only
    split_ifs <;> simp [savedPids_append, savedPids, emit, saveConversation]

theorem outStep_leave_chat_early (socket : SocketId) (sid : SessionId) (now : Time)
    (w : World) : OutStep w (leave_chat_early socket sid now w) := by
  unfold leave_chat_early
  split
  · dsimp only
    split_ifs
    · refine outStep_post (v := endSession sid Reason.participant_left_early now
          (emit (Target.roomExcept sid socket) ServerEvent.participant_left_early w))
        (outStep_pre (by simp [savedPids_append, savedPids]) (outStep_endSession _ _ _ _)) rfl rfl
    · exact outStep_refl _
  · exact outStep_refl _

theorem startGracePeriod_out (sid : SessionId) (pid : ParticipantId) (socket : SocketId)
    (now : Time) (w : World) : (startGracePeriod sid pid socket now w).out = w.out := by
  unfold startGracePeriod
  split
  · split_ifs <;> rfl
  · rfl

theorem disconnect_out (socket : SocketId) (now : Time) (w : World) :
    (disconnect socket now w).out = w.out := by
  unfold disconnect
  split
  · rfl
  · next sk _ =>
    obtain ⟨_, _, h3⟩ := removeFromQueues_frame sk.classification socket
      { w with sockets := w.sockets.filter (fun x => decide (x.id ≠ socket)) }
    dsimp only
    split
    · rw [startGracePeriod_out, h3]
    · exact h3

theorem outStep_runTimer (action : TimerAction) (now : Time) (w : World) :
    OutStep w (runTimer action now w) := by
  cases action with
  | timeLimit sid => exact outStep_endSession sid Reason.time_limit now w
  | reconnectCheck sid pid socket =>
    unfold runTimer
    dsimp only
    split
    · split_ifs
      all_goals first
        | exact outStep_refl w
        | exact outStep_of_eq (by simp [savedPids_append, savedPids])
    · exact outStep_refl w
  | finalCheck sid pid socket =>
    unfold runTimer
    dsimp only
    split
    · split_ifs
      all_goals first
        | exact outStep_refl w
        | exact outStep_endSession sid Reason.participant_disconnect now w
    · exact outStep_refl w
  | removeSession sid => exact outStep_of_eq rfl

theorem outStep_onSocket {socket : SocketId} {handler : World → World} {w : World}
    (h : OutStep w (handler w)) : OutStep w (onSocket socket handler w) := by
  unfold onSocket
  split_ifs
  · exact h
  · exact outStep_refl w

theorem outStep_step (w : World) (i : Input) : OutStep w (step w i) := by
  cases i with
  | submit_survey pid prolific_id responses now =>
    apply outStep_of_eq
    unfold step submit_survey
    dsimp only
    split
    · simp [savedPids_append, savedPids]
    · split_ifs <;> simp [savedPids_append, savedPids, saveParticipant]
  | connect socket =>
    unfold step
    dsimp only
    split_ifs
    · exact outStep_refl w
    · exact outStep_of_eq rfl
  | join_queue socket pid sid enqueued now =>
    exact outStep_onSocket (outStep_join_queue _ _ _ _ _ _)
  | join_session socket sid pid =>
    exact outStep_onSocket (outStep_of_eq (join_session_savedPids _ _ _ _))
  | send_message socket sid message now =>
    exact outStep_onSocket (outStep_of_eq (send_message_savedPids _ _ _ _ _))
  | typing_start socket sid =>
    exact outStep_onSocket (outStep_emit_after (outStep_refl w) _ _)
  | typing_stop socket sid =>
    exact outStep_onSocket (outStep_emit_after (outStep_refl w) _ _)
  | leave_session socket sid =>
    exact outStep_onSocket (outStep_post (outStep_emit_after (outStep_refl w) _ _) rfl rfl)
  | leave_chat_early socket sid now =>
    exact outStep_onSocket (outStep_leave_chat_early _ _ _ _)
  | disconnect socket now =>
    exact outStep_of_eq (by rw [show (step w (Input.disconnect socket now)).out = w.out from
      disconnect_out socket now w])
  | timeout timer now =>
    unfold step
    dsimp only
    split_ifs
    · exact outStep_pre (v := { w with timers := w.timers.erase timer }) rfl
        (outStep_runTimer _ _ _)
    · exact outStep_refl w

theorem liveSaved_of_eq {w w' : World} (hs : w'.activeSessions = w.activeSessions)
    (ho : savedPids w'.out = savedPids w.out) (h : LiveSaved w) : LiveSaved w' := by
  intro p hp y hy
  rw [ho]
  exact h p (hs ▸ hp) y hy

theorem liveSaved_emit_after {w1 : World} (h : LiveSaved w1) (t : Target) (e : ServerEvent) :
    LiveSaved (emit t e w1) :=
  liveSaved_of_eq (w := w1) rfl (by simp [savedPids_append, savedPids]) h

theorem liveSaved_join_queue (socket : SocketId) (pid : ParticipantId) (sid : SessionId)
    (enqueued now : Time) (w : World) (h : LiveSaved w) :
    LiveSaved (join_queue socket pid sid enqueued now w) := by
  unfold join_queue
  split
  · exact liveSaved_emit_after h _ _
  · dsimp only
    split
    · apply liveSaved_emit_after
      apply liveSaved_tryToMatch
      exact fun p hp y hy => h p hp y hy
    · apply liveSaved_emit_after
      apply liveSaved_tryToMatch
      exact fun p hp y hy => h p hp y hy
    · exact h

theorem liveSaved_step (w : World) (i : Input) (h : LiveSaved w) : LiveSaved (step w i) := by
  rcases step_cases w i with he | hr | hq
  · intro p hp y hy
    obtain ⟨s, hmem, hpart, _⟩ := he.2.2.2 p hp
    exact (outStep_step w i).1 y (h _ hmem y (hpart ▸ hy))
  · obtain ⟨_, _, _, _, _, _, _, _, hS⟩ := hr
    intro p hp y hy
    exact (outStep_step w i).1 y (h p (hS ▸ hp) y hy)
  · obtain ⟨socket, pid, sid, enqueued, now, _, hi, _⟩ := hq
    subst hi
    unfold step onSocket
    dsimp only
    split_ifs
    · exact liveSaved_join_queue socket pid sid enqueued now w h
    · exact h

theorem liveSaved_run (tr : List Input) :
    ∀ w : World, LiveSaved w → LiveSaved (run w tr) := by
  induction tr with
  | nil => exact fun w h => h
  | cons i rest ih =>
    intro w h
    rw [run_cons]
    exact ih _ (liveSaved_step w i h)

theorem heads_not_in_tails {x a b : ParticipantId} {R1 R2 : List ParticipantId}
    (h : (a :: (R1 ++ b :: R2)).count x ≤ 1) (hx : x = a ∨ x = b) : x ∉ R1 ++ R2 := by
  have hp : (a :: (R1 ++ b :: R2)).Perm (a :: b :: (R1 ++ R2)) := List.perm_middle.cons a
  rw [hp.count_eq, List.count_cons, List.count_cons] at h
  rw [← List.count_eq_zero]
  rcases hx with hx | hx
  · subst hx
    rw [if_pos (beq_self_eq_true x)] at h
    omega
  · subst hx
    rw [if_pos (beq_self_eq_true x)] at h
    split at h <;> omega

theorem tails_count_le {x : ParticipantId} {q : WaitingQueues} {e1 e2 : QueueEntry}
    {r1 r2 : List QueueEntry} (h1 : q.pro_climate = e1 :: r1) (h2 : q.anti_climate = e2 :: r2) :
    (queuePids { pro_climate := r1, anti_climate := r2 }).count x ≤ (queuePids q).count x := by
  apply List.Sublist.count_le
  apply queuePids_sublist
  · rw [h1]
    exact List.sublist_cons_self _ _
  · rw [h2]
    exact List.sublist_cons_self _ _

/-- One turn keeps participant `x` clear of the queues once matched, if a
`join_queue` for `x` arrives only while `x` is neither queued nor matched. -/
theorem matchedClear_step (x : ParticipantId) (w : World) (i : Input) (hl : LiveSaved w)
    (h : MatchedClear x w)
    (hj : ∀ socket pid sid enqueued now, i = Input.join_queue socket pid sid enqueued now →
      pid ≠ x ∨ (x ∉ queuedPids w ∧ x ∉ savedPids w.out)) :
    MatchedClear x (step w i) := by
  obtain ⟨hcount, hclear⟩ := h
  have hout := outStep_step w i
  rcases step_cases w i with he | hr | hq
  · have hsub := queuePids_sublist he.2.1 he.2.2.1
    refine ⟨Nat.le_trans (hsub.count_le x) hcount, fun hx hq' => ?_⟩
    have hxs : x ∈ savedPids w.out := by
      rcases hout.2 x hx with hx | ⟨p, hp, hxp⟩
      · exact hx
      · obtain ⟨s, hmem, hpart, _⟩ := he.2.2.2 p hp
        exact hl _ hmem x (hpart ▸ hxp)
    exact hclear hxs (hsub.subset hq')
  · obtain ⟨_, _, _, _, _, _, _, hq, hS⟩ := hr
    have hqe : queuedPids (step w i) = queuedPids w := by
      unfold queuedPids
      rw [hq]
    rw [MatchedClear, hqe]
    refine ⟨hcount, fun hx => ?_⟩
    rcases hout.2 x hx with hx | ⟨p, hp, hxp⟩
    · exact hclear hx
    · exact hclear (hl p (hS ▸ hp) x hxp)
  · obtain ⟨socket, pid, sid, enqueued, now, q, hi, _, hpush, hm⟩ := hq
    have hcond := hj socket pid sid enqueued now hi
    have hperm : (queuePids q).Perm (pid :: queuePids w.waitingQueues) :=
      queuePids_push (e := { participant_id := pid, socket_id := socket, timestamp := enqueued })
        (hpush.imp (fun h => h.2) (fun h => h.2))
    have hcq : (queuePids q).count x ≤ 1 := by
      rw [hperm.count_eq, List.count_cons]
      rcases hcond with hne | ⟨hnq, _⟩
      · have : (pid == x) = false := by simpa using hne
        rw [this]
        simpa using hcount
      · have h0 : (queuePids w.waitingQueues).count x = 0 := List.count_eq_zero.mpr hnq
        rw [h0]
        split <;> omega
    have holdq : x ∈ savedPids w.out → x ∉ queuePids q := by
      intro hx hxq
      rcases List.mem_cons.mp (hperm.subset hxq) with hxp | hxp
      · rcases hcond with hne | ⟨_, hns⟩
        · exact hne hxp.symm
        · exact hns hx
      · exact hclear hx hxp
    rcases hm with ⟨_, hq', hS'⟩ | ⟨e1, r1, e2, r2, s, h1, h2, hq', hS', hpart, _⟩
    · have hqe : queuedPids (step w i) = queuePids q := by
        unfold queuedPids
        rw [hq']
      rw [MatchedClear, hqe]
      refine ⟨hcq, fun hx => ?_⟩
      rcases hout.2 x hx with hx | ⟨p, hp, hxp⟩
      · exact holdq hx
      · exact holdq (hl p (hS' ▸ hp) x hxp)
    · have hqe : queuedPids (step w i) =
          queuePids { pro_climate := r1, anti_climate := r2 } := by
        unfold queuedPids
        rw [hq']
      have hsubq : ∀ y ∈ queuePids { pro_climate := r1, anti_climate := r2 }, y ∈ queuePids q := by
        apply List.Sublist.subset
        apply queuePids_sublist
        · rw [h1]
          exact List.sublist_cons_self _ _
        · rw [h2]
          exact List.sublist_cons_self _ _
      rw [MatchedClear, hqe]
      refine ⟨Nat.le_trans (tails_count_le h1 h2) hcq, fun hx hxq => ?_⟩
      have hhead : x = e1.participant_id ∨ x = e2.participant_id → False := by
        intro hxe
        have hqq : queuePids q = e1.participant_id ::
            (r1.map (fun e => e.participant_id) ++
              e2.participant_id :: r2.map (fun e => e.participant_id)) := by
          simp [queuePids, h1, h2]
        rw [hqq] at hcq
        have := heads_not_in_tails hcq hxe
        apply this
        simpa [queuePids] using hxq
      rcases hout.2 x hx with hx | ⟨p, hp, hxp⟩
      · exact holdq hx (hsubq x hxq)
      · rw [hS'] at hp
        rcases mem_mapSet hp with hnew | hold
        · subst hnew
          rw [hpart] at hxp
          simp only [List.mem_cons, List.mem_singleton, List.not_mem_nil, or_false] at hxp
          exact hhead hxp
        · exact holdq (hl p hold x hxp) (hsubq x hxq)

theorem matchedClear_run (x : ParticipantId) (tr : List Input) :
    ∀ w : World, joinsWhenIdle x w tr = true → LiveSaved w → MatchedClear x w →
      MatchedClear x (run w tr) ∧ LiveSaved (run w tr) := by
  induction tr with
  | nil => exact fun w _ hl h => ⟨h, hl⟩
  | cons i rest ih =>
    intro w hj hl h
    rw [run_cons]
    have hstep : MatchedClear x (step w i) := by
      apply matchedClear_step x w i hl h
      intro socket pid sid enqueued now hi
      subst hi
      simp only [joinsWhenIdle, everMatched, Bool.and_eq_true, Bool.or_eq_true,
        decide_eq_true_eq] at hj
      exact hj.1
    have hrest : joinsWhenIdle x (step w i) rest = true := by
      cases i with
      | join_queue socket pid sid enqueued now =>
        simp only [joinsWhenIdle, Bool.and_eq_true] at hj
        exact hj.2
      | _ => exact hj
    exact ih _ hrest (liveSaved_step w i hl) hstep

/-! ## The claims -/

/-- C1: for every integer score `s` passed as `climate_human_causation`,
`classifyParticipant` returns `pro_climate` exactly when `s ≥ 5`,
`anti_climate` exactly when `s ≤ 3`, `neutral` exactly when `s = 4`, and the
returned score is `s`. -/
theorem classifyParticipant_thresholds (s : Int) (overall_perspective opinion_influences : JSString) :
    ((classifyParticipant ⟨some s, overall_perspective, opinion_influences⟩).classification
        = Classification.pro_climate ↔ 5 ≤ s) ∧
    ((classifyParticipant ⟨some s, overall_perspective, opinion_influences⟩).classification
        = Classification.anti_climate ↔ s ≤ 3) ∧
    ((classifyParticipant ⟨some s, overall_perspective, opinion_influences⟩).classification
        = Classification.neutral ↔ s = 4) ∧
    (classifyParticipant ⟨some s, overall_perspective, opinion_influences⟩).score = some s := by
  unfold classifyParticipant jsGe jsLe
  by_cases h5 : 5 ≤ s
  · simp [h5]
    omega
  · by_cases h3 : s ≤ 3
    · simp [h5, h3]
      omega
    · simp [h5, h3]
      omega

/-- C2: in every state reached from the initial state by an admissible run,
every live session has exactly two participants, the first classified
`pro_climate` and the second classified `anti_climate`; so the two are never of
the same group. -/
theorem sessions_pair_opposed_groups (tr : List Input) (hv : valid World.init tr = true)
    (p : SessionId × Session) (hp : p ∈ (run World.init tr).activeSessions) :
    ∃ a b, p.2.participants = [a, b] ∧
      classificationOf (run World.init tr) a = some Classification.pro_climate ∧
      classificationOf (run World.init tr) b = some Classification.anti_climate ∧
      classificationOf (run World.init tr) a ≠ classificationOf (run World.init tr) b := by
  obtain ⟨a, b, hab, ha, hb⟩ := (opposed_run tr World.init hv opposed_init).2 p hp
  exact ⟨a, b, hab, ha, hb, by rw [ha, hb]; decide⟩

/-- C2 on the run `matchedRun` and its session 901. -/
theorem sessions_pair_opposed_groups_witness :
    valid World.init matchedRun = true ∧
    (901, matchedSession) ∈ (run World.init matchedRun).activeSessions ∧
    ∃ a b, matchedSession.participants = [a, b] ∧
      classificationOf (run World.init matchedRun) a = some Classification.pro_climate ∧
      classificationOf (run World.init matchedRun) b = some Classification.anti_climate ∧
      classificationOf (run World.init matchedRun) a ≠
        classificationOf (run World.init matchedRun) b :=
  ⟨by decide, by decide,
    sessions_pair_opposed_groups matchedRun (by decide) (901, matchedSession) (by decide)⟩

/-- C3 (the code departs from the claim): session 901 is ended by
`leave_chat_early` at 299000 ms with `completion_status` incomplete and is still
in live memory when its 5-minute timer fires at 302000 ms. That second
`endSession` is not a no-op: it rewrites the end timestamp, the duration and
the completion status and broadcasts `conversation_ended` once more. -/
theorem endSession_on_ended_session_rewrites :
    valid World.init (earlyExitRun ++ [Input.timeout timeLimitTimer 302000]) = true ∧
    timeLimitTimer ∈ (run World.init earlyExitRun).timers ∧
    (mapGet 901 (run World.init earlyExitRun).activeSessions).map
        (fun s => (s.status, s.timestamp_end, s.conversation_duration_seconds,
          s.completion_status, s.message_count)) =
      some (Status.ended, some 299000, some 297, some CompletionStatus.incomplete, some 1) ∧
    (mapGet 901 (step (run World.init earlyExitRun)
        (Input.timeout timeLimitTimer 302000)).activeSessions).map
        (fun s => (s.status, s.timestamp_end, s.conversation_duration_seconds,
          s.completion_status, s.message_count)) =
      some (Status.ended, some 302000, some 300, some CompletionStatus.completed, some 1) ∧
    ((run World.init earlyExitRun).out.filter (fun o => decide (o =
        Output.emit (Target.room 901) (ServerEvent.conversation_ended Reason.time_limit)))).length
      = 0 ∧
    (step (run World.init earlyExitRun) (Input.timeout timeLimitTimer 302000)).out.getLast? =
      some (Output.emit (Target.room 901) (ServerEvent.conversation_ended Reason.time_limit)) ∧
    ((step (run World.init earlyExitRun) (Input.timeout timeLimitTimer 302000)).out.filter
        (fun o => match o with
          | Output.emit (Target.room 901) (ServerEvent.conversation_ended _) => true
          | _ => false)).length = 2 := by
  refine ⟨?_, ?_, ?_, ?_, ?_, ?_, ?_⟩ <;> first | decide | rfl

/-- C4: in every state reached from the initial state, a `send_message` on a
live session whose start lies 300 whole seconds or more before `now` leaves
every conversation log unchanged and sends `conversation_ended` with reason
`time_limit` to the sender, and nothing else. Otherwise the message is
appended to the log of that session, as the entry with timestamp `now`, the
participant of the sending socket as sender, the first 500 code units of the
message as text and the length of the message as character count; no other
session changes, and the entry is broadcast to the room and the conversation
saved. Every message already in the log was accepted less than 300 seconds
after the start of its session. -/
theorem send_message_time_limit (tr : List Input) (socket : SocketId) (sid : SessionId)
    (message : JSString) (now : Time) (s : Session)
    (hs : mapGet sid (run World.init tr).activeSessions = some s) :
    (300 ≤ diffSeconds now s.timestamp_start →
      (send_message socket sid message now (run World.init tr)).activeSessions =
        (run World.init tr).activeSessions ∧
      (send_message socket sid message now (run World.init tr)).out =
        (run World.init tr).out ++
          [Output.emit (Target.socket socket) (ServerEvent.conversation_ended Reason.time_limit)]) ∧
    (diffSeconds now s.timestamp_start < 300 →
      (send_message socket sid message now (run World.init tr)).activeSessions =
        mapSet sid
          { s with conversation := s.conversation ++
              [{ timestamp := now
                 sender := (getSocket socket (run World.init tr)).bind (fun sk => sk.participant_id)
                 message := message.take 500
                 character_count := message.length }] }
          (run World.init tr).activeSessions ∧
      mapGet sid (send_message socket sid message now (run World.init tr)).activeSessions =
        some { s with conversation := s.conversation ++
          [{ timestamp := now
             sender := (getSocket socket (run World.init tr)).bind (fun sk => sk.participant_id)
             message := message.take 500
             character_count := message.length }] } ∧
      (send_message socket sid message now (run World.init tr)).out =
        (run World.init tr).out ++
          [Output.emit (Target.room sid) (ServerEvent.receive_message
              { timestamp := now
                sender := (getSocket socket (run World.init tr)).bind (fun sk => sk.participant_id)
                message := message.take 500
                character_count := message.length }),
           Output.saveConversation
              { session_id := sid
                conversation := s.conversation ++
                  [{ timestamp := now
                     sender := (getSocket socket (run World.init tr)).bind
                       (fun sk => sk.participant_id)
                     message := message.take 500
                     character_count := message.length }]
                total_messages := s.conversation.length + 1
                last_updated := some now
                messages_per_participant := none
                conversation_duration_seconds := none
                completion_reason := none }]) ∧
    (∀ m ∈ s.conversation, diffSeconds m.timestamp s.timestamp_start < 300) := by
  refine ⟨fun hel => ?_, fun hel => ⟨?_, ?_, ?_⟩, ?_⟩
  · rw [send_message_rejected _ socket sid message now s hs hel]
    exact ⟨rfl, rfl⟩
  · exact send_message_accepted _ socket sid message now s hs hel
  · rw [send_message_accepted _ socket sid message now s hs hel, mapGet_mapSet_self]
  · exact send_message_accepted_out _ socket sid message now s hs hel
  · have hinv : MessagesInTime (run World.init tr) :=
      messagesInTime_run tr World.init (by intro p hp; simp [World.init] at hp)
    exact hinv (sid, s) (mem_of_mapGet hs)

/-- C4 on session 901 of `matchedRun`: the message "hello" sent on socket 1 at
12000 ms is appended as the entry of sender 101 with that text; the same
message at 302000 ms changes no session and only answers the sender. -/
theorem send_message_time_limit_witness :
    mapGet 901 (run World.init matchedRun).activeSessions = some matchedSession ∧
    mapGet 901 (send_message 1 901 (ofAscii "hello") 12000
        (run World.init matchedRun)).activeSessions =
      some { matchedSession with conversation :=
        [{ timestamp := 12000, sender := some 101, message := ofAscii "hello",
           character_count := 5 }] } ∧
    (send_message 1 901 (ofAscii "hello") 302000 (run World.init matchedRun)).activeSessions =
      (run World.init matchedRun).activeSessions ∧
    (send_message 1 901 (ofAscii "hello") 302000 (run World.init matchedRun)).out =
      (run World.init matchedRun).out ++
        [Output.emit (Target.socket 1) (ServerEvent.conversation_ended Reason.time_limit)] :=
  ⟨by decide,
    ((send_message_time_limit matchedRun 1 901 (ofAscii "hello") 12000 matchedSession
      (by decide)).2.1 (by decide)).2.1,
    ((send_message_time_limit matchedRun 1 901 (ofAscii "hello") 302000 matchedSession
      (by decide)).1 (by decide)).1,
    ((send_message_time_limit matchedRun 1 901 (ofAscii "hello") 302000 matchedSession
      (by decide)).1 (by decide)).2⟩

/-- C5, refuted as stated, in two ways. In `doubleJoinRun`, `join_queue` is
sent for participant 101 while the participant is still waiting; participant
101 is then matched into session 902 and still has an entry in the pro queue.
In `rejoinRun`, `join_queue` is sent for participant 101 after the match into
session 901, and the participant has an entry in the pro queue again. -/
theorem matched_participant_still_queued :
    (valid World.init doubleJoinRun = true ∧
      (902, newSessionData 902 2000
          { participant_id := 101, socket_id := 1, timestamp := 1000 }
          { participant_id := 102, socket_id := 2, timestamp := 2000 }) ∈
        (run World.init doubleJoinRun).activeSessions ∧
      (run World.init doubleJoinRun).waitingQueues.pro_climate =
        [{ participant_id := 101, socket_id := 1, timestamp := 1500 }] ∧
      101 ∈ everMatched (run World.init doubleJoinRun) ∧
      101 ∈ queuedPids (run World.init doubleJoinRun) ∧
      joinsWhenIdle 101 World.init doubleJoinRun = false) ∧
    (valid World.init rejoinRun = true ∧
      (901, matchedSession) ∈ (run World.init rejoinRun).activeSessions ∧
      (run World.init rejoinRun).waitingQueues.pro_climate =
        [{ participant_id := 101, socket_id := 1, timestamp := 3000 }] ∧
      101 ∈ everMatched (run World.init rejoinRun) ∧
      101 ∈ queuedPids (run World.init rejoinRun) ∧
      joinsWhenIdle 101 World.init rejoinRun = false) ∧
    ¬ (∀ x ∈ everMatched (run World.init doubleJoinRun),
        x ∉ queuedPids (run World.init doubleJoinRun)) := by
  refine ⟨⟨?_, ?_, ?_, ?_, ?_, ?_⟩, ⟨?_, ?_, ?_, ?_, ?_, ?_⟩, fun h => ?_⟩
  all_goals first
    | decide
    | exact h 101 (by decide) (by decide)

/-- C5, amended: in every state reached from the initial state, a participant
who has been matched into a session by `tryToMatch`, whether that session is
still live or has left live memory, has no entry in either waiting queue,
provided that every `join_queue` sent for that participant arrived while the
participant had no queue entry and had not been matched. `join_queue` may then
have been sent more than once for the participant. -/
theorem matched_participant_not_queued (tr : List Input) (x : ParticipantId)
    (hj : joinsWhenIdle x World.init tr = true) :
    (x ∈ everMatched (run World.init tr) → x ∉ queuedPids (run World.init tr)) ∧
    (∀ p ∈ (run World.init tr).activeSessions, x ∈ p.2.participants →
      x ∉ queuedPids (run World.init tr)) := by
  have hl0 : LiveSaved World.init := by
    intro p hp
    simp [World.init] at hp
  have hc0 : MatchedClear x World.init := by
    refine ⟨?_, fun hx => ?_⟩
    · simp [queuedPids, queuePids, World.init]
    · simp [savedPids, World.init] at hx
  obtain ⟨hc, hl⟩ := matchedClear_run x tr World.init hj hl0 hc0
  exact ⟨hc.2, fun p hp hx => hc.2 (hl p hp x hx)⟩

/-- C5 as amended, on `refreshRun`: `join_queue` is sent twice for participant
101, the second time after a disconnect has removed the first entry; after the
match no entry of participant 101 is left. -/
theorem matched_participant_not_queued_witness :
    valid World.init refreshRun = true ∧
    joinQueuePids refreshRun = [101, 101, 102] ∧
    joinsWhenIdle 101 World.init refreshRun = true ∧
    101 ∈ everMatched (run World.init refreshRun) ∧
    (902, newSessionData 902 9000
        { participant_id := 101, socket_id := 3, timestamp := 8000 }
        { participant_id := 102, socket_id := 2, timestamp := 9000 }) ∈
      (run World.init refreshRun).activeSessions ∧
    101 ∉ queuedPids (run World.init refreshRun) :=
  ⟨by decide, by decide, by decide, by decide, by decide,
    (matched_participant_not_queued refreshRun 101 (by decide)).1 (by decide)⟩

/-- C6, refuted as stated, in its two parts. Session 901 of `matchedRun` has
status `created` (nobody has joined yet): `leave_chat_early` from participant
101 leaves it as it is, not ended, and nothing is sent. Session 901 of
`activeRun` is active with an empty log: `leave_chat_early` ends it, but the
only record written is the session record, which has `completion_status`
incomplete and no field for the reason; the reason is only broadcast. -/
theorem leave_chat_early_without_end_or_reason :
    (valid World.init (matchedRun ++ [Input.leave_chat_early 1 901 5000]) = true ∧
      mapGet 901 (run World.init matchedRun).activeSessions = some matchedSession ∧
      matchedSession.status = Status.created ∧
      mapGet 901 (step (run World.init matchedRun)
        (Input.leave_chat_early 1 901 5000)).activeSessions = some matchedSession ∧
      (step (run World.init matchedRun) (Input.leave_chat_early 1 901 5000)).out =
        (run World.init matchedRun).out) ∧
    (valid World.init (activeRun ++ [Input.leave_chat_early 1 901 299000]) = true ∧
      mapGet 901 (run World.init activeRun).activeSessions = some activeSession ∧
      activeSession.status = Status.active ∧ activeSession.conversation = [] ∧
      (step (run World.init activeRun) (Input.leave_chat_early 1 901 299000)).out =
        (run World.init activeRun).out ++
          [Output.emit (Target.roomExcept 901 1) ServerEvent.participant_left_early,
           Output.saveSession
             { activeSession with
               status := Status.ended
               timestamp_end := some 299000
               conversation_duration_seconds := some 297
               completion_status := some CompletionStatus.incomplete
               message_count := some 0 },
           Output.emit (Target.room 901)
             (ServerEvent.conversation_ended Reason.participant_left_early)]) := by
  refine ⟨⟨?_, ?_, ?_, ?_, ?_⟩, ?_, ?_, ?_, ?_, ?_⟩ <;> decide

/-- C6, amended: for every live session whose status is `active`, a
`leave_chat_early` request ends it: afterwards its status is `ended` and its
completion status `incomplete`, the other participant is sent
`participant_left_early`, the session record is saved, and the last thing sent
is `conversation_ended` with reason `participant_left_early` to the room of the
session. When the conversation log is not empty, the conversation record saved
in between has `participant_left_early` as its completion reason; when the log
is empty no conversation record is written, so no reason is recorded. For a
live session whose status is `created` the request changes no session, sends
nothing and schedules nothing. -/
theorem leave_chat_early_ends_active_session (w : World) (socket : SocketId) (sid : SessionId)
    (now : Time) (s : Session) (hs : mapGet sid w.activeSessions = some s) :
    (s.status = Status.active →
      mapGet sid (leave_chat_early socket sid now w).activeSessions =
        some { s with
          status := Status.ended
          timestamp_end := some now
          conversation_duration_seconds := some (diffSeconds now s.timestamp_start)
          completion_status := some CompletionStatus.incomplete
          message_count := some s.conversation.length } ∧
      (leave_chat_early socket sid now w).out.getLast? =
        some (Output.emit (Target.room sid)
          (ServerEvent.conversation_ended Reason.participant_left_early)) ∧
      (s.conversation ≠ [] →
        (leave_chat_early socket sid now w).out =
          w.out ++
            [Output.emit (Target.roomExcept sid socket) ServerEvent.participant_left_early,
             Output.saveSession
               { s with
                 status := Status.ended
                 timestamp_end := some now
                 conversation_duration_seconds := some (diffSeconds now s.timestamp_start)
                 completion_status := some CompletionStatus.incomplete
                 message_count := some s.conversation.length },
             Output.saveConversation
               { session_id := sid
                 conversation := s.conversation
                 total_messages := s.conversation.length
                 last_updated := none
                 messages_per_participant :=
                   some (s.participants.foldl
                     (fun acc pid => mapSet pid
                       (s.conversation.filter
                         (fun msg => decide (msg.sender = some pid))).length acc)
                     [])
                 conversation_duration_seconds := some (diffSeconds now s.timestamp_start)
                 completion_reason := some Reason.participant_left_early },
             Output.emit (Target.room sid)
               (ServerEvent.conversation_ended Reason.participant_left_early)]) ∧
      (s.conversation = [] →
        (leave_chat_early socket sid now w).out =
          w.out ++
            [Output.emit (Target.roomExcept sid socket) ServerEvent.participant_left_early,
             Output.saveSession
               { s with
                 status := Status.ended
                 timestamp_end := some now
                 conversation_duration_seconds := some (diffSeconds now s.timestamp_start)
                 completion_status := some CompletionStatus.incomplete
                 message_count := some s.conversation.length },
             Output.emit (Target.room sid)
               (ServerEvent.conversation_ended Reason.participant_left_early)])) ∧
    (s.status = Status.created →
      (leave_chat_early socket sid now w).activeSessions = w.activeSessions ∧
      (leave_chat_early socket sid now w).out = w.out ∧
      (leave_chat_early socket sid now w).timers = w.timers) := by
  refine ⟨fun ha => ?_, fun hc => ?_⟩
  · rw [leave_chat_early_active w socket sid now s hs ha]
    have hs' : mapGet sid
        (emit (Target.roomExcept sid socket) ServerEvent.participant_left_early w).activeSessions
          = some s := hs
    refine ⟨?_, ?_, fun hne => ?_, fun he => ?_⟩
    · rw [updateSocket_activeSessions, endSession_activeSessions _ _ _ _ s hs',
        mapGet_mapSet_self]
      simp
    · rw [updateSocket_out]
      exact endSession_out_getLast _ _ _ _ s hs'
    · have hlen : s.conversation.length > 0 := List.length_pos.mpr hne
      rw [updateSocket_out, endSession_out _ _ _ _ s hs', if_pos hlen]
      simp
    · have hlen : ¬ s.conversation.length > 0 := by simp [he]
      rw [updateSocket_out, endSession_out _ _ _ _ s hs', if_neg hlen]
      simp
  · rw [leave_chat_early_not_active w socket sid now s hs (by rw [hc]; decide)]
    exact ⟨rfl, rfl, rfl⟩

/-- C6 as amended, on the active session 901 of `chatRun`, whose log holds one
message: the session is ended and the saved conversation record carries the
reason `participant_left_early`. -/
theorem leave_chat_early_ends_active_session_witness :
    mapGet 901 (run World.init chatRun).activeSessions = some chatSession ∧
    chatSession.status = Status.active ∧ chatSession.conversation ≠ [] ∧
    mapGet 901 (leave_chat_early 1 901 299000 (run World.init chatRun)).activeSessions =
      some { chatSession with
        status := Status.ended
        timestamp_end := some 299000
        conversation_duration_seconds := some 297
        completion_status := some CompletionStatus.incomplete
        message_count := some 1 } ∧
    (leave_chat_early 1 901 299000 (run World.init chatRun)).out =
      (run World.init chatRun).out ++
        [Output.emit (Target.roomExcept 901 1) ServerEvent.participant_left_early,
         Output.saveSession
           { chatSession with
             status := Status.ended
             timestamp_end := some 299000
             conversation_duration_seconds := some 297
             completion_status := some CompletionStatus.incomplete
             message_count := some 1 },
         Output.saveConversation
           { session_id := 901
             conversation := chatSession.conversation
             total_messages := 1
             last_updated := none
             messages_per_participant := some [(101, 1), (102, 0)]
             conversation_duration_seconds := some 297
             completion_reason := some Reason.participant_left_early },
         Output.emit (Target.room 901)
           (ServerEvent.conversation_ended Reason.participant_left_early)] :=
  ⟨by decide, by decide, by decide,
    ((leave_chat_early_ends_active_session (run World.init chatRun) 1 901 299000 chatSession
      (by decide)).1 (by decide)).1,
    ((leave_chat_early_ends_active_session (run World.init chatRun) 1 901 299000 chatSession
      (by decide)).1 (by decide)).2.2.1 (by decide)⟩

/-- C7: for every message text `m` accepted by `send_message` (live session,
less than 300 seconds elapsed), the entry appended to the conversation log has
as text the first 500 code units of `m`, which is `m` itself when `m` has at
most 500, and its `character_count` is the length of the original `m`. -/
theorem send_message_truncates_text (w : World) (socket : SocketId) (sid : SessionId)
    (m : JSString) (now : Time) (s : Session) (hs : mapGet sid w.activeSessions = some s)
    (hel : diffSeconds now s.timestamp_start < 300) :
    ∃ messageObj : Message,
      (mapGet sid (send_message socket sid m now w).activeSessions).map
          (fun s' => s'.conversation) = some (s.conversation ++ [messageObj]) ∧
      messageObj.message = m.take 500 ∧
      (m.length ≤ 500 → messageObj.message = m) ∧
      messageObj.character_count = m.length := by
  refine ⟨Message.mk now ((getSocket socket w).bind (fun sk => sk.participant_id))
    (m.take 500) m.length, ?_, rfl, fun hle => List.take_of_length_le hle, rfl⟩
  rw [send_message_accepted w socket sid m now s hs hel, mapGet_mapSet_self]
  rfl

/-- C7 on a message of 600 code units sent to session 901 of `activeRun`. -/
theorem send_message_truncates_text_witness :
    mapGet 901 (run World.init activeRun).activeSessions = some activeSession ∧
    diffSeconds 12000 activeSession.timestamp_start < 300 ∧
    ∃ messageObj : Message,
      (mapGet 901 (send_message 1 901 (List.replicate 600 97) 12000
          (run World.init activeRun)).activeSessions).map (fun s' => s'.conversation) =
        some (activeSession.conversation ++ [messageObj]) ∧
      messageObj.message = (List.replicate 600 97).take 500 ∧
      ((List.replicate 600 97).length ≤ 500 → messageObj.message = List.replicate 600 97) ∧
      messageObj.character_count = (List.replicate 600 97).length :=
  ⟨by decide, by decide,
    send_message_truncates_text (run World.init activeRun) 1 901 (List.replicate 600 97) 12000
      activeSession (by decide) (by decide)⟩

/-- C8: when both queues are non-empty, `tryToMatch` stores one session whose
participants are the head of the pro queue followed by the head of the anti
queue, and leaves in each queue exactly its tail, in the original order; when
either queue is empty it changes nothing at all. -/
theorem tryToMatch_pairs_heads (w : World) (sid : SessionId) (now : Time) :
    (∀ e1 r1 e2 r2, w.waitingQueues.pro_climate = e1 :: r1 →
      w.waitingQueues.anti_climate = e2 :: r2 →
      (tryToMatch sid now w).waitingQueues = { pro_climate := r1, anti_climate := r2 } ∧
      (tryToMatch sid now w).activeSessions =
        mapSet sid (newSessionData sid now e1 e2) w.activeSessions ∧
      (newSessionData sid now e1 e2).participants = [e1.participant_id, e2.participant_id]) ∧
    (w.waitingQueues.pro_climate = [] ∨ w.waitingQueues.anti_climate = [] →
      tryToMatch sid now w = w) :=
  ⟨fun e1 r1 e2 r2 h1 h2 =>
      ⟨(tryToMatch_of_heads w sid now e1 e2 r1 r2 h1 h2).1,
        (tryToMatch_of_heads w sid now e1 e2 r1 r2 h1 h2).2, rfl⟩,
    tryToMatch_of_empty w sid now⟩

/-- C8 on `crowdedWorld` (both queues non-empty) and on the initial state
(both queues empty). -/
theorem tryToMatch_pairs_heads_witness :
    (tryToMatch 900 2000 crowdedWorld).waitingQueues =
      { pro_climate := [{ participant_id := 103, socket_id := 3, timestamp := 1200 }]
        anti_climate := [{ participant_id := 104, socket_id := 4, timestamp := 1300 }] } ∧
    (tryToMatch 900 2000 crowdedWorld).activeSessions =
      mapSet 900 (newSessionData 900 2000
        { participant_id := 101, socket_id := 1, timestamp := 1000 }
        { participant_id := 102, socket_id := 2, timestamp := 1100 }) crowdedWorld.activeSessions ∧
    tryToMatch 900 2000 World.init = World.init :=
  ⟨((tryToMatch_pairs_heads crowdedWorld 900 2000).1 _ _ _ _ rfl rfl).1,
    ((tryToMatch_pairs_heads crowdedWorld 900 2000).1 _ _ _ _ rfl rfl).2.1,
    (tryToMatch_pairs_heads World.init 900 2000).2 (Or.inl rfl)⟩

/-- C9: `tryToMatch` runs only inside `join_queue`, right after an entry has
been pushed on one of the queues of a state reached from the initial state.
In each such state, whichever queue got the entry, at least one of the two
queues is empty when `tryToMatch` returns, and it has run to completion: a
further call finds nothing to pair and changes nothing. At least one queue is
empty as well after the whole `join_queue` handler, and after `tryToMatch` on
any reached state. -/
theorem tryToMatch_leaves_a_queue_empty (tr : List Input) (socket : SocketId)
    (f : Socket → Socket) (e : QueueEntry) (pid : ParticipantId) (sid sid2 : SessionId)
    (enqueued now now2 : Time) :
    (OneQueueEmpty (tryToMatch sid now (updateSocket socket f
        { run World.init tr with
          waitingQueues :=
            { (run World.init tr).waitingQueues with
              pro_climate := (run World.init tr).waitingQueues.pro_climate ++ [e] } })) ∧
      tryToMatch sid2 now2 (tryToMatch sid now (updateSocket socket f
        { run World.init tr with
          waitingQueues :=
            { (run World.init tr).waitingQueues with
              pro_climate := (run World.init tr).waitingQueues.pro_climate ++ [e] } })) =
        tryToMatch sid now (updateSocket socket f
          { run World.init tr with
            waitingQueues :=
              { (run World.init tr).waitingQueues with
                pro_climate := (run World.init tr).waitingQueues.pro_climate ++ [e] } })) ∧
    (OneQueueEmpty (tryToMatch sid now (updateSocket socket f
        { run World.init tr with
          waitingQueues :=
            { (run World.init tr).waitingQueues with
              anti_climate := (run World.init tr).waitingQueues.anti_climate ++ [e] } })) ∧
      tryToMatch sid2 now2 (tryToMatch sid now (updateSocket socket f
        { run World.init tr with
          waitingQueues :=
            { (run World.init tr).waitingQueues with
              anti_climate := (run World.init tr).waitingQueues.anti_climate ++ [e] } })) =
        tryToMatch sid now (updateSocket socket f
          { run World.init tr with
            waitingQueues :=
              { (run World.init tr).waitingQueues with
                anti_climate := (run World.init tr).waitingQueues.anti_climate ++ [e] } })) ∧
    OneQueueEmpty (join_queue socket pid sid enqueued now (run World.init tr)) ∧
    OneQueueEmpty (tryToMatch sid now (run World.init tr)) := by
  have hinv : OneQueueEmpty (run World.init tr) := oneQueueEmpty_run tr World.init (Or.inl rfl)
  have hpro : OneQueueEmpty (tryToMatch sid now (updateSocket socket f
      { run World.init tr with
        waitingQueues :=
          { (run World.init tr).waitingQueues with
            pro_climate := (run World.init tr).waitingQueues.pro_climate ++ [e] } })) := by
    apply tryToMatch_oneQueueEmpty_of_short
    rcases hinv with h | h
    · left
      show ((run World.init tr).waitingQueues.pro_climate ++ [e]).length ≤ 1
      rw [h]
      exact Nat.le_refl 1
    · right
      show (run World.init tr).waitingQueues.anti_climate.length ≤ 1
      rw [h]
      exact Nat.zero_le 1
  have hanti : OneQueueEmpty (tryToMatch sid now (updateSocket socket f
      { run World.init tr with
        waitingQueues :=
          { (run World.init tr).waitingQueues with
            anti_climate := (run World.init tr).waitingQueues.anti_climate ++ [e] } })) := by
    apply tryToMatch_oneQueueEmpty_of_short
    rcases hinv with h | h
    · left
      show (run World.init tr).waitingQueues.pro_climate.length ≤ 1
      rw [h]
      exact Nat.zero_le 1
    · right
      show ((run World.init tr).waitingQueues.anti_climate ++ [e]).length ≤ 1
      rw [h]
      exact Nat.le_refl 1
  refine ⟨⟨hpro, tryToMatch_of_empty _ sid2 now2 hpro⟩, ⟨hanti, tryToMatch_of_empty _ sid2 now2 hanti⟩,
    ?_, ?_⟩
  · rcases join_queue_cases socket pid sid enqueued now (run World.init tr) with h | h
    · exact oneQueueEmpty_of_cases (i := Input.connect 0) hinv (Or.inl h)
    · exact oneQueueEmpty_of_cases hinv (Or.inr (Or.inr h))
  · apply tryToMatch_oneQueueEmpty_of_short
    rcases hinv with h | h
    · exact Or.inl (by rw [h]; exact Nat.zero_le 1)
    · exact Or.inr (by rw [h]; exact Nat.zero_le 1)

/-- C9 on the last `join_queue` of `matchedRun`: the entry of participant 102
is pushed on the anti queue while participant 101 waits in the pro queue;
`tryToMatch` pairs them and returns with both queues empty. -/
theorem tryToMatch_leaves_a_queue_empty_witness :
    (run World.init (matchedRun.take 5)).waitingQueues.pro_climate =
      [{ participant_id := 101, socket_id := 1, timestamp := 1000 }] ∧
    (tryToMatch 901 2000 (updateSocket 2
        (fun s => { s with
          participant_id := some 102
          classification := some Classification.anti_climate })
        { run World.init (matchedRun.take 5) with
          waitingQueues :=
            { (run World.init (matchedRun.take 5)).waitingQueues with
              anti_climate := (run World.init (matchedRun.take 5)).waitingQueues.anti_climate ++
                [{ participant_id := 102, socket_id := 2, timestamp := 2000 }] } })).waitingQueues =
      { pro_climate := [], anti_climate := [] } ∧
    OneQueueEmpty (tryToMatch 901 2000 (updateSocket 2
        (fun s => { s with
          participant_id := some 102
          classification := some Classification.anti_climate })
        { run World.init (matchedRun.take 5) with
          waitingQueues :=
            { (run World.init (matchedRun.take 5)).waitingQueues with
              anti_climate := (run World.init (matchedRun.take 5)).waitingQueues.anti_climate ++
                [{ participant_id := 102, socket_id := 2, timestamp := 2000 }] } })) :=
  ⟨by decide, by decide,
    (tryToMatch_leaves_a_queue_empty (matchedRun.take 5) 2
      (fun s => { s with
        participant_id := some 102
        classification := some Classification.anti_climate })
      { participant_id := 102, socket_id := 2, timestamp := 2000 } 102 901 902 2000 2000
      3000).2.1.1⟩

/-- The plain reconnection: a socket that carries participant `pid` of a live,
not ended session disconnects at `now1`, and `pid` rejoins the session by
`join_session` right away. After the rejoin the check is pending and the
session is not ended, with `pid` connected. Whatever inputs `mid` arrive before
the check fires, as long as no socket of `pid` drops again (and `uuidv4()`
does not repeat the session identifier), the firing check sends nothing (so no `participant_disconnected` reaches the peer), schedules no
second check and changes no session (so it ends none). -/
theorem reconnect_before_check_is_silent (w : World) (socket socket2 : SocketId)
    (sid : SessionId) (pid : ParticipantId) (sk : Socket) (s : Session) (now1 now3 : Time)
    (mid : List Input)
    (hsk : getSocket socket w = some sk) (hsid : sk.session_id = some sid)
    (hpid : sk.participant_id = some pid) (hs : mapGet sid w.activeSessions = some s)
    (hne : s.status ≠ Status.ended) (hp : pid ∈ s.participants)
    (hmid : undisturbed sid pid (join_session socket2 sid pid (disconnect socket now1 w)) mid
      = true) :
    ({ due := now1 + 10000, action := TimerAction.reconnectCheck sid pid socket } : Timer) ∈
      (join_session socket2 sid pid (disconnect socket now1 w)).timers ∧
    (∃ s2, mapGet sid (join_session socket2 sid pid (disconnect socket now1 w)).activeSessions
        = some s2 ∧ s2.status ≠ Status.ended ∧ pid ∈ s2.connected_participants) ∧
    (step (run (join_session socket2 sid pid (disconnect socket now1 w)) mid)
      (Input.timeout ⟨now1 + 10000, TimerAction.reconnectCheck sid pid socket⟩ now3)).out =
      (run (join_session socket2 sid pid (disconnect socket now1 w)) mid).out ∧
    (step (run (join_session socket2 sid pid (disconnect socket now1 w)) mid)
      (Input.timeout ⟨now1 + 10000, TimerAction.reconnectCheck sid pid socket⟩ now3)).timers =
      (run (join_session socket2 sid pid (disconnect socket now1 w)) mid).timers.erase
        ⟨now1 + 10000, TimerAction.reconnectCheck sid pid socket⟩ ∧
    (step (run (join_session socket2 sid pid (disconnect socket now1 w)) mid)
      (Input.timeout ⟨now1 + 10000, TimerAction.reconnectCheck sid pid socket⟩ now3)).activeSessions =
      (run (join_session socket2 sid pid (disconnect socket now1 w)) mid).activeSessions := by
  obtain ⟨hd1, hd2, _⟩ := disconnect_of_live w socket now1 sk sid pid s hsk hsid hpid hs hne
  have hs1 : mapGet sid (disconnect socket now1 w).activeSessions =
      some { s with connected_participants :=
        s.connected_participants.filter (fun x => decide (x ≠ pid)) } := by
    rw [hd1, mapGet_mapSet_self]
  obtain ⟨⟨s2, hs2, hne2, hc2⟩, ht2⟩ :=
    join_session_of_live (disconnect socket now1 w) socket2 sid pid _ hs1 hp hne
  have hmem : ({ due := now1 + 10000, action := TimerAction.reconnectCheck sid pid socket } : Timer) ∈
      (join_session socket2 sid pid (disconnect socket now1 w)).timers := by
    rw [ht2, hd2]
    exact List.mem_append_right _ (List.mem_singleton_self _)
  have hsilent0 : CheckSilent sid pid
      (join_session socket2 sid pid (disconnect socket now1 w)).activeSessions := by
    intro x hx
    rw [hs2] at hx
    cases hx
    exact Or.inr hc2
  have hsilent := checkSilent_run sid pid mid _ hmid hsilent0
  refine ⟨hmem, ⟨s2, hs2, hne2, hc2⟩, ?_⟩
  unfold step
  dsimp only
  split_ifs with hpending
  · rw [reconnectCheck_of_silent
      { run (join_session socket2 sid pid (disconnect socket now1 w)) mid with
        timers := (run (join_session socket2 sid pid (disconnect socket now1 w)) mid).timers.erase
          ⟨now1 + 10000, TimerAction.reconnectCheck sid pid socket⟩ }
      sid pid socket now3 hsilent]
    exact ⟨rfl, rfl, rfl⟩
  · exact ⟨rfl, (List.erase_of_not_mem hpending).symm, rfl⟩

/-- The plain reconnection on `activeRun`: socket 1 of participant 101 drops
at 20000 ms, the participant rejoins on socket 3, the peer sends a message,
and the check fires at 30000 ms. -/
theorem reconnect_before_check_is_silent_witness :
    getSocket 1 (run World.init activeRun) =
      some { id := 1, participant_id := some 101,
             classification := some Classification.pro_climate,
             session_id := some 901, rooms := [901] } ∧
    mapGet 901 (run World.init activeRun).activeSessions = some activeSession ∧
    activeSession.status ≠ Status.ended ∧ 101 ∈ activeSession.participants ∧
    undisturbed 901 101 (join_session 3 901 101 (disconnect 1 20000 (run World.init activeRun)))
      [Input.send_message 2 901 (ofAscii "hello") 25000] = true ∧
    (step (run (join_session 3 901 101 (disconnect 1 20000 (run World.init activeRun)))
        [Input.send_message 2 901 (ofAscii "hello") 25000])
      (Input.timeout ⟨20000 + 10000, TimerAction.reconnectCheck 901 101 1⟩ 30000)).out =
      (run (join_session 3 901 101 (disconnect 1 20000 (run World.init activeRun)))
        [Input.send_message 2 901 (ofAscii "hello") 25000]).out :=
  ⟨by decide, by decide, by decide, by decide, by decide,
    (reconnect_before_check_is_silent (run World.init activeRun) 1 3 901 101
      { id := 1, participant_id := some 101, classification := some Classification.pro_climate,
        session_id := some 901, rooms := [901] }
      activeSession 20000 30000 [Input.send_message 2 901 (ofAscii "hello") 25000]
      (by decide) rfl rfl (by decide) (by decide) (by decide) (by decide)).2.2.1⟩

/-- C10 (the code departs from the claim): in `reloadRun` socket 1 of
participant 101 drops at 20000 ms and the participant rejoins session 901 on
socket 3, well before the 10-second check. The participant then joins on socket
4 as well and socket 3 closes at 25000 ms, which takes the participant out of
the connected set although socket 4 stays connected and joined. When the check
of the first drop fires at 30000 ms it finds the participant missing, sends
`participant_disconnected` to the peer and schedules the second-stage check;
that one fires at 50000 ms and ends the session with reason
`participant_disconnect`, while participant 101 is connected on socket 4. -/
theorem reconnect_check_notifies_after_rejoin :
    valid World.init reloadEndRun = true ∧
    (mapGet 901 (run World.init activeRun).activeSessions = some activeSession ∧
      activeSession.status ≠ Status.ended ∧ 101 ∈ activeSession.participants ∧
      getSocket 1 (run World.init activeRun) =
        some { id := 1, participant_id := some 101,
               classification := some Classification.pro_climate,
               session_id := some 901, rooms := [901] }) ∧
    firstCheckTimer ∈ (run World.init (activeRun ++ [Input.disconnect 1 20000])).timers ∧
    (mapGet 901 (run World.init
        (activeRun ++ [Input.disconnect 1 20000, Input.join_session 3 901 101])).activeSessions).map
        (fun s => (s.status, s.connected_participants)) = some (Status.active, [102, 101]) ∧
    (getSocket 4 (run World.init reloadRun) =
        some { id := 4, participant_id := some 101, classification := none,
               session_id := some 901, rooms := [901] } ∧
      (mapGet 901 (run World.init reloadRun).activeSessions).map
        (fun s => (s.status, s.connected_participants)) = some (Status.active, [102]) ∧
      firstCheckTimer ∈ (run World.init reloadRun).timers) ∧
    ((step (run World.init reloadRun) (Input.timeout firstCheckTimer 30000)).out =
        (run World.init reloadRun).out ++
          [Output.emit (Target.roomExcept 901 1) ServerEvent.participant_disconnected] ∧
      finalCheckTimer ∈
        (step (run World.init reloadRun) (Input.timeout firstCheckTimer 30000)).timers ∧
      finalCheckTimer ∉ (run World.init reloadRun).timers) ∧
    ((mapGet 901 (run World.init reloadEndRun).activeSessions).map
        (fun s => (s.status, s.completion_status, s.timestamp_end)) =
        some (Status.ended, some CompletionStatus.incomplete, some 50000) ∧
      (run World.init reloadEndRun).out.getLast? =
        some (Output.emit (Target.room 901)
          (ServerEvent.conversation_ended Reason.participant_disconnect)) ∧
      (getSocket 4 (run World.init reloadEndRun)).isSome = true) := by
  refine ⟨?_, ⟨?_, ?_, ?_, ?_⟩, ?_, ?_, ⟨?_, ?_, ?_⟩, ⟨?_, ?_, ?_⟩, ⟨?_, ?_, ?_⟩⟩ <;> decide

/-- C11, refuted as stated: in `antiFirstRun` the anti participant was queued
at 1000 ms and the pro participant at 61000 ms, when the match is made. The
first enqueue lies 60 whole seconds before the match, but the session records
`pairing_time_seconds` 0, counted from the pro entry. -/
theorem pairing_time_ignores_earlier_anti_entry :
    valid World.init antiFirstRun = true ∧
    (run World.init (antiFirstRun.take 5)).waitingQueues =
      { pro_climate := []
        anti_climate := [{ participant_id := 102, socket_id := 2, timestamp := 1000 }] } ∧
    mapGet 901 (run World.init antiFirstRun).activeSessions =
      some (newSessionData 901 61000
        { participant_id := 101, socket_id := 1, timestamp := 61000 }
        { participant_id := 102, socket_id := 2, timestamp := 1000 }) ∧
    (mapGet 901 (run World.init antiFirstRun).activeSessions).map
      (fun s => s.pairing_time_seconds) = some 0 ∧
    diffSeconds 61000 (min 61000 1000) = 60 ∧
    (mapGet 901 (run World.init antiFirstRun).activeSessions).map
      (fun s => s.pairing_time_seconds) ≠ some (diffSeconds 61000 (min 61000 1000)) := by
  refine ⟨?_, ?_, ?_, ?_, ?_, ?_⟩ <;> decide

/-- C11, amended: the session that `tryToMatch` creates records as
`pairing_time_seconds` the whole seconds between the match time and the enqueue
timestamp of the pro participant of the pair (the head of the pro queue),
whether that participant was queued earlier or later than the anti participant.
That is the whole seconds from the first enqueue to the match whenever the pro
participant was queued no later than the anti participant, and in general
exactly when the pro participant was queued no later or both enqueue
timestamps lie the same number of whole seconds before the match. -/
theorem pairing_time_counts_from_pro_entry (w : World) (sid : SessionId) (now : Time)
    (e1 e2 : QueueEntry) (r1 r2 : List QueueEntry)
    (h1 : w.waitingQueues.pro_climate = e1 :: r1)
    (h2 : w.waitingQueues.anti_climate = e2 :: r2) :
    ∃ s, mapGet sid (tryToMatch sid now w).activeSessions = some s ∧
      s.participants = [e1.participant_id, e2.participant_id] ∧
      s.timestamp_start = now ∧
      s.pairing_time_seconds = diffSeconds now e1.timestamp ∧
      (e1.timestamp ≤ e2.timestamp →
        s.pairing_time_seconds = diffSeconds now (min e1.timestamp e2.timestamp)) ∧
      (s.pairing_time_seconds = diffSeconds now (min e1.timestamp e2.timestamp) ↔
        e1.timestamp ≤ e2.timestamp ∨
          diffSeconds now e1.timestamp = diffSeconds now e2.timestamp) := by
  refine ⟨newSessionData sid now e1 e2, ?_, rfl, rfl, rfl, fun hle => ?_, ?_⟩
  · rw [(tryToMatch_of_heads w sid now e1 e2 r1 r2 h1 h2).2, mapGet_mapSet_self]
  · rw [min_eq_left hle]
    rfl
  · show diffSeconds now e1.timestamp = diffSeconds now (min e1.timestamp e2.timestamp) ↔ _
    by_cases hle : e1.timestamp ≤ e2.timestamp
    · rw [min_eq_left hle]
      exact ⟨fun _ => Or.inl hle, fun _ => rfl⟩
    · rw [min_eq_right (le_of_not_le hle)]
      exact ⟨fun h => Or.inr h, fun h => h.resolve_left hle⟩

/-- C11 as amended, on the state in which `tryToMatch` runs in `antiFirstRun`
(the handler's closing `queue_status` then gives the end state of the run):
the pro entry was queued at 61000 ms, the anti entry at 1000 ms, the match is
made at 61000 ms and the session records 0 seconds. -/
theorem pairing_time_counts_from_pro_entry_witness :
    emit (Target.socket 1) (ServerEvent.queue_status 0 Classification.anti_climate)
      (tryToMatch 901 61000 antiFirstCallState) = run World.init antiFirstRun ∧
    antiFirstCallState.waitingQueues.pro_climate =
      [{ participant_id := 101, socket_id := 1, timestamp := 61000 }] ∧
    antiFirstCallState.waitingQueues.anti_climate =
      [{ participant_id := 102, socket_id := 2, timestamp := 1000 }] ∧
    ∃ s, mapGet 901 (tryToMatch 901 61000 antiFirstCallState).activeSessions = some s ∧
      s.participants = [101, 102] ∧
      s.timestamp_start = 61000 ∧
      s.pairing_time_seconds = diffSeconds 61000 61000 ∧
      ((61000 : Time) ≤ 1000 →
        s.pairing_time_seconds = diffSeconds 61000 (min 61000 1000)) ∧
      (s.pairing_time_seconds = diffSeconds 61000 (min 61000 1000) ↔
        (61000 : Time) ≤ 1000 ∨ diffSeconds 61000 61000 = diffSeconds 61000 1000) :=
  ⟨by decide, by decide, by decide,
    pairing_time_counts_from_pro_entry antiFirstCallState 901 61000
      { participant_id := 101, socket_id := 1, timestamp := 61000 }
      { participant_id := 102, socket_id := 2, timestamp := 1000 } [] []
      (by decide) (by decide)⟩

/-- C12 (the code departs from the claim): session 901 is ended by
`leave_chat_early` at 299000 ms with one message in its log and
`message_count` 1, and stays in live memory until 304000 ms. A `send_message`
from the other participant at 300000 ms, 298 whole seconds after the start, is
not a no-op: the handler does not look at the status, appends the message to
the log of the ended session, broadcasts it and saves the conversation again.
The log then has 2 messages while `message_count` is still 1. -/
theorem send_message_appends_to_ended_session :
    valid World.init (earlyExitRun ++ [Input.send_message 2 901 (ofAscii "late") 300000]) = true ∧
    (mapGet 901 (run World.init earlyExitRun).activeSessions).map
        (fun s => (s.status, s.conversation.length, s.message_count)) =
      some (Status.ended, 1, some 1) ∧
    (getSocket 2 (run World.init earlyExitRun)).isSome = true ∧
    diffSeconds 300000 2000 = 298 ∧
    (mapGet 901 (step (run World.init earlyExitRun)
        (Input.send_message 2 901 (ofAscii "late") 300000)).activeSessions).map
        (fun s => (s.status, s.conversation.length, s.message_count)) =
      some (Status.ended, 2, some 1) ∧
    (mapGet 901 (step (run World.init earlyExitRun)
        (Input.send_message 2 901 (ofAscii "late") 300000)).activeSessions).bind
        (fun s => s.conversation.getLast?) =
      some { timestamp := 300000, sender := some 102, message := ofAscii "late",
             character_count := 4 } ∧
    ((step (run World.init earlyExitRun)
        (Input.send_message 2 901 (ofAscii "late") 300000)).out.drop
          (run World.init earlyExitRun).out.length).map
        (fun o => match o with
          | Output.emit (Target.room 901) (ServerEvent.receive_message _) => 1
          | Output.saveConversation _ => 2
          | _ => 0) = [1, 2] := by
  refine ⟨?_, ?_, ?_, ?_, ?_, ?_, ?_⟩ <;> decide

end ConversionNarratives
